import Mathlib

/-!
Verification of the dialogue state machine and recommendation engine of the
restaurant-concierge repository: a shallow embedding of the TypeScript source
(the recommender, the Slots-flow controller `processMessage`, and the
mode-driven controller `processMessageNew`) together with theorems settling
the frozen claims.

Embedding conventions:
* The static catalog module (`lib/restaurants.ts`, not part of the staged
  sources) is replaced by an explicit `catalog : List Restaurant` parameter.
* Browser storage is replaced by explicit state passing: each controller step
  takes the stored state and returns the new one; message-history and
  booking-record persistence (timestamps, generated ids) is outside the model.
* The LLM-backed capabilities (slot extraction, answer validation, date
  resolution, classification) are external effects: each call's outcome is an
  input parameter of the step function, `Option.none` standing for the path
  where the call throws and the surrounding `catch` runs.
* JavaScript numbers used for scores, ratings and confidences are embedded as
  rationals, so `* 0.3` and `* 0.5` are exact.
* JavaScript truthiness is modelled per type: an optional string is truthy
  when present and non-empty, an optional number when present and non-zero,
  an optional array or object when present (an empty array is truthy).
-/

/-- JS `s.toLowerCase()` (ASCII case mapping), written over the character
list so the kernel can evaluate it. -/
def jsLower (s : String) : String := ⟨s.toList.map Char.toLower⟩

/-- JS `s.trim()`, written over the character list. -/
def jsTrim (s : String) : String :=
  ⟨((s.toList.dropWhile Char.isWhitespace).reverse.dropWhile Char.isWhitespace).reverse⟩

/-- JS `s.startsWith(pre)`. -/
def strStartsWith (s pre : String) : Bool := pre.toList.isPrefixOf s.toList

/-- JS `hay.includes(needle)`: substring containment. -/
def strIncludes (hay needle : String) : Bool :=
  decide (List.IsInfix needle.toList hay.toList)

/-- JS `hay.toLowerCase().includes(needle.toLowerCase())`. -/
def lowerIncludes (hay needle : String) : Bool :=
  strIncludes (jsLower hay) (jsLower needle)

/-- Truthiness of an optional string: `undefined` and `""` are falsy. -/
def jsStrTruthy : Option String → Bool
  | none => false
  | some s => s ≠ ""

/-- Truthiness of an optional number: `undefined` and `0` are falsy. -/
def jsNatTruthy : Option Nat → Bool
  | none => false
  | some n => n ≠ 0

/-- JS `a.sort(...)` with a key-descending comparator: a stable descending
sort, embedded as insertion sort (stable, like Array.prototype.sort). -/
def sortByKeyDesc {α β : Type} [LinearOrder β] (key : α → β) (l : List α) : List α :=
  l.insertionSort (fun a b => key b ≤ key a)

theorem sortByKeyDesc_perm {α β : Type} [LinearOrder β] (key : α → β) (l : List α) :
    (sortByKeyDesc key l).Perm l :=
  List.perm_insertionSort _ l

theorem sortByKeyDesc_sorted {α β : Type} [LinearOrder β] (key : α → β) (l : List α) :
    List.Sorted (fun a b => key b ≤ key a) (sortByKeyDesc key l) := by
  haveI : IsTotal α (fun a b => key b ≤ key a) := ⟨fun a b => le_total (key b) (key a)⟩
  haveI : IsTrans α (fun a b => key b ≤ key a) := ⟨fun a b c h1 h2 => le_trans h2 h1⟩
  exact List.sorted_insertionSort _ l

theorem sortByKeyDesc_mem {α β : Type} [LinearOrder β] (key : α → β) (l : List α)
    (x : α) (hx : x ∈ sortByKeyDesc key l) : x ∈ l :=
  (sortByKeyDesc_perm key l).mem_iff.mp hx

/-- JS string-keyed number record, read with `rec[k] || 0`: an association
list in insertion order, as a JS object iterates its keys. -/
def getCount : List (String × Nat) → String → Nat
  | [], _ => 0
  | p :: t, k => if p.1 = k then p.2 else getCount t k

/-- JS `rec[k] = (rec[k] || 0) + 1`: bump the key's entry in place, or append
the key at the end as a JS object does. -/
def bump : List (String × Nat) → String → List (String × Nat)
  | [], k => [(k, 1)]
  | p :: t, k => if p.1 = k then (p.1, p.2 + 1) :: t else p :: bump t k

theorem getCount_bump_self (l : List (String × Nat)) (k : String) :
    getCount (bump l k) k = getCount l k + 1 := by
  induction l with
  | nil => simp [bump, getCount]
  | cons p t ih =>
      by_cases hp : p.1 = k <;> simp [bump, getCount, hp, ih]

theorem getCount_bump_other (l : List (String × Nat)) (k k' : String) (h : k ≠ k') :
    getCount (bump l k') k = getCount l k := by
  induction l with
  | nil =>
      have h2 : ¬ k' = k := fun hh => h hh.symm
      simp [bump, getCount, h2]
  | cons p t ih =>
      by_cases hp : p.1 = k' <;> by_cases hk : p.1 = k <;>
        simp_all [bump, getCount]

theorem getCount_bump_le (l : List (String × Nat)) (k k' : String) :
    getCount l k ≤ getCount (bump l k') k := by
  by_cases h : k = k'
  · subst h; rw [getCount_bump_self]; omega
  · rw [getCount_bump_other l k k' h]

theorem getCount_foldl_bump_le (ks : List String) (l : List (String × Nat)) (k : String) :
    getCount l k ≤ getCount (ks.foldl bump l) k := by
  induction ks generalizing l with
  | nil => simp
  | cons a t ih => exact le_trans (getCount_bump_le l k a) (ih (bump l a))

theorem getCount_foldl_not_mem (ks : List String) (l : List (String × Nat)) (k : String)
    (h : k ∉ ks) : getCount (ks.foldl bump l) k = getCount l k := by
  induction ks generalizing l with
  | nil => rfl
  | cons a t ih =>
      have hka : k ≠ a := fun hh => h (hh ▸ List.mem_cons_self a t)
      have hkt : k ∉ t := fun hh => h (List.mem_cons_of_mem a hh)
      simp only [List.foldl_cons]
      rw [ih (bump l a) hkt, getCount_bump_other l k a hka]

theorem getCount_foldl_nodup_mem (ks : List String) (l : List (String × Nat)) (k : String)
    (hnd : ks.Nodup) (hmem : k ∈ ks) :
    getCount (ks.foldl bump l) k = getCount l k + 1 := by
  induction ks generalizing l with
  | nil => cases hmem
  | cons a t ih =>
      simp only [List.foldl_cons]
      rcases List.mem_cons.mp hmem with h | h
      · subst h
        have hkt : k ∉ t := (List.nodup_cons.mp hnd).1
        rw [getCount_foldl_not_mem t (bump l k) k hkt, getCount_bump_self]
      · have hka : k ≠ a := by
          rintro rfl
          exact (List.nodup_cons.mp hnd).1 h
        rw [ih (bump l a) (List.nodup_cons.mp hnd).2 h, getCount_bump_other l k a hka]

/- ------------------------------------------------------------------ -/
/- Data model (src/types/index.ts)                                     -/
/- ------------------------------------------------------------------ -/

inductive Price | low | mid | high
deriving DecidableEq, Repr

inductive Budget | cheap | mid | high
deriving DecidableEq, Repr

inductive MealTime | breakfast | lunch | dinner | coffee | drinks | lateNight
deriving DecidableEq, Repr

inductive Vibe | romantic | lively | quiet | outdoor | family | business
deriving DecidableEq, Repr

/-- The string a `Vibe` enum value is in the source (used as a key of the
profile's `vibePrefs` record). -/
def vibeKey : Vibe → String
  | .romantic => "romantic"
  | .lively => "lively"
  | .quiet => "quiet"
  | .outdoor => "outdoor"
  | .family => "family"
  | .business => "business"

structure Restaurant where
  id : String
  name : String
  area : String
  city : String
  cuisines : List String
  price : Price
  vibe : List String
  dietary : List String
  rating : ℚ
  highlights : List String
  bookingAvailable : Bool
  discountCode : Option String
deriving DecidableEq, Repr

structure AvoidPrefs where
  cuisines : Option (List String)
  tags : Option (List String)
deriving DecidableEq, Repr

structure Slots where
  mealTime : Option MealTime := none
  area : Option String := none
  partySize : Option Nat := none
  budget : Option Budget := none
  cravingCuisines : Option (List String) := none
  vibe : Option Vibe := none
  dietary : Option (List String) := none
  avoid : Option AvoidPrefs := none
deriving DecidableEq, Repr

structure BookingDraft where
  restaurantId : String
  date : Option String := none
  time : Option String := none
  partySize : Option Nat := none
  notes : Option String := none
deriving DecidableEq, Repr

structure Profile where
  cuisinesLiked : List (String × Nat) := []
  vibePrefs : List (String × Nat) := []
  budgetDefault : Option Budget := none
  dietary : Option (List String) := none
  lastArea : Option String := none
deriving DecidableEq, Repr

inductive ConversationState
  | WELCOME | DISCOVERY | RECOMMEND | BOOKING_COLLECT | BOOKING_CONFIRM | REFINE
deriving DecidableEq, Repr

structure RestaurantRecommendation where
  restaurant : Restaurant
  reasons : List String
deriving DecidableEq, Repr

structure ScoredRestaurant where
  restaurant : Restaurant
  score : ℚ
deriving DecidableEq, Repr

/- ------------------------------------------------------------------ -/
/- Recommendation engine (src/lib/recommender.ts)                      -/
/- ------------------------------------------------------------------ -/

/-- `mapBudgetToPrice`. -/
def mapBudgetToPrice : Budget → Price
  | .cheap => .low
  | .mid => .mid
  | .high => .high

/-- `filterRestaurants` over the catalog (the source reads the static
`RESTAURANTS` list). -/
def filterRestaurants (catalog : List Restaurant) (slots : Slots) (_profile : Profile) :
    List Restaurant :=
  let f1 := match slots.area with
    | some a =>
        if a ≠ "" then
          catalog.filter (fun r => lowerIncludes r.area a || lowerIncludes a r.area)
        else catalog
    | none => catalog
  let f2 := match slots.budget with
    | some b => f1.filter (fun r => r.price = mapBudgetToPrice b)
    | none => f1
  let f3 := match slots.dietary with
    | some reqs =>
        if reqs.length > 0 then
          f2.filter (fun r =>
            reqs.any (fun req => r.dietary.any (fun d => lowerIncludes d req)))
        else f2
    | none => f2
  let f4 := match slots.avoid.bind (fun a => a.cuisines) with
    | some av =>
        if av.length > 0 then
          f3.filter (fun r =>
            !(av.any (fun ac => r.cuisines.any (fun c => lowerIncludes c ac))))
        else f3
    | none => f3
  match slots.avoid.bind (fun a => a.tags) with
  | some tags =>
      if tags.length > 0 then
        f4.filter (fun r =>
          !(tags.any (fun t =>
            r.vibe.any (fun v => lowerIncludes v t)
              || r.highlights.any (fun h => lowerIncludes h t))))
      else f4
  | none => f4

/-- The fixed vibe category map of `scoreRestaurant` and `generateReasons`. -/
def vibeCategoryWords : Vibe → List String
  | .romantic => ["romantic", "intimate", "elegant"]
  | .lively => ["lively", "casual", "fun"]
  | .quiet => ["quiet", "peaceful", "calm"]
  | .outdoor => ["outdoor", "patio", "garden"]
  | .family => ["family-friendly", "family"]
  | .business => ["business", "professional", "upscale"]

/-- A requested cuisine matches a catalog cuisine when either lowercased
string contains the other (`scoreRestaurant`'s bidirectional test). -/
def cuisineMatchesRestaurant (r : Restaurant) (c : String) : Bool :=
  r.cuisines.any (fun rc => lowerIncludes rc c || lowerIncludes c rc)

/-- Some catalog vibe tag maps, via the fixed category map, to the requested
vibe (`scoreRestaurant`'s vibe test). -/
def vibeMatchesRestaurant (r : Restaurant) (v : Vibe) : Bool :=
  r.vibe.any (fun tag => (vibeCategoryWords v).any (fun m => lowerIncludes tag m))

/-- `scoreRestaurant`: the additive score, accumulated in source order. -/
def scoreRestaurant (restaurant : Restaurant) (slots : Slots) (profile : Profile) : ℚ :=
  let cuisineTerm : ℚ := match slots.cravingCuisines with
    | some l =>
        if l.length > 0 then
          ((l.filter (fun c => cuisineMatchesRestaurant restaurant c)).length : ℚ) * 3
        else 0
    | none => 0
  let vibeTerm : ℚ := match slots.vibe with
    | some v => if vibeMatchesRestaurant restaurant v then 2 else 0
    | none => 0
  let budgetTerm : ℚ := match slots.budget with
    | some b => if restaurant.price = mapBudgetToPrice b then 1 else 0
    | none => 0
  let dietaryTerm : ℚ := match slots.dietary with
    | some l =>
        if l.length > 0 then
          ((l.filter (fun d =>
            restaurant.dietary.any (fun rd => lowerIncludes rd d))).length : ℚ)
        else 0
    | none => 0
  let profileCuisineTerm : ℚ := match slots.cravingCuisines with
    | some l => (l.map (fun c => (getCount profile.cuisinesLiked c : ℚ) * 0.5)).sum
    | none => 0
  let profileVibeTerm : ℚ := match slots.vibe with
    | some v => (getCount profile.vibePrefs (vibeKey v) : ℚ) * 0.5
    | none => 0
  cuisineTerm + vibeTerm + budgetTerm + dietaryTerm + profileCuisineTerm
    + profileVibeTerm + restaurant.rating * 0.5

/-- The per-item adjustment of `diversifyRecommendations`: a previously shown
top pick keeps 0.3 of its score, anything else is untouched. -/
def diversifyAdjust (previousTopPickIds : List String) (item : ScoredRestaurant) :
    ScoredRestaurant :=
  if previousTopPickIds.contains item.restaurant.id then
    { item with score := item.score * 0.3 }
  else item

/-- `diversifyRecommendations`. -/
def diversifyRecommendations (scored : List ScoredRestaurant)
    (previousTopPickIds : Option (List String)) : List ScoredRestaurant :=
  match previousTopPickIds with
  | none => scored
  | some prev =>
      if prev.length = 0 then scored
      else sortByKeyDesc (fun s => s.score) (scored.map (diversifyAdjust prev))

/-- `generateReasons` (recommender.ts). -/
def generateReasons (restaurant : Restaurant) (slots : Slots) (_profile : Profile) :
    List String :=
  let r1 : List String := match slots.cravingCuisines with
    | some l =>
        if l.length > 0 then
          let hits := l.filter (fun c => cuisineMatchesRestaurant restaurant c)
          if hits.length > 0 then
            ["great " ++ String.intercalate " and " hits ++ " cuisine"]
          else []
        else []
    | none => []
  let r2 : List String := match slots.vibe with
    | some v =>
        if vibeMatchesRestaurant restaurant v then
          ["perfect " ++ vibeKey v ++ " vibe"]
        else []
    | none => []
  let r3 : List String := match slots.budget with
    | some b =>
        if restaurant.price = mapBudgetToPrice b then
          ["matches your " ++ (match b with
            | .cheap => "cheap" | .mid => "mid" | .high => "high") ++ " budget"]
        else []
    | none => []
  let r4 : List String :=
    if restaurant.rating ≥ 4.5 then
      ["highly rated (" ++ toString restaurant.rating ++ " stars)"]
    else []
  let r5 : List String := match restaurant.highlights with
    | h :: _ => [h]
    | [] => []
  (r1 ++ r2 ++ r3 ++ r4 ++ r5).take 3

structure RecommendResult where
  topPick : RestaurantRecommendation
  alternatives : List RestaurantRecommendation
deriving DecidableEq, Repr

/-- `recommendRestaurants`. `none` models the exception the source throws when
the catalog itself is empty (indexing `allScored[0]`). -/
def recommendRestaurants (catalog : List Restaurant) (slots : Slots) (profile : Profile)
    (previousTopPickIds : Option (List String)) : Option RecommendResult :=
  let filtered := filterRestaurants catalog slots profile
  if filtered.isEmpty then
    let allScored := sortByKeyDesc (fun s => s.score)
      (catalog.map (fun r => ScoredRestaurant.mk r (scoreRestaurant r slots profile)))
    match allScored with
    | [] => none
    | top :: _ =>
        some ⟨⟨top.restaurant, generateReasons top.restaurant slots profile⟩, []⟩
  else
    let scored := sortByKeyDesc (fun s => s.score)
      (filtered.map (fun r => ScoredRestaurant.mk r (scoreRestaurant r slots profile)))
    let diversified := diversifyRecommendations scored previousTopPickIds
    match diversified with
    | [] => none
    | top :: rest =>
        some ⟨⟨top.restaurant, generateReasons top.restaurant slots profile⟩,
          (rest.take 2).map (fun alt =>
            ⟨alt.restaurant, generateReasons alt.restaurant slots profile⟩)⟩

/- ------------------------------------------------------------------ -/
/- ActiveRequest flow recommender (part_004 lines 1-122, newRecommender) -/
/- ------------------------------------------------------------------ -/

structure BudgetPair where
  range : Nat
  label : String
deriving DecidableEq, Repr

structure ActiveRequest where
  area : Option String := none
  cuisine : Option String := none
  budget : Option BudgetPair := none
  partySize : Option Nat := none
  date : Option String := none
  time : Option String := none
  notes : Option String := none
deriving DecidableEq, Repr

/-- The `budgetMap` of `getTopRestaurants`; `range` is 1..4 by typing, other
values do not occur. -/
def priceOfRange (range : Nat) : Price :=
  if range ≤ 1 then .low else if range = 2 then .mid else .high

/-- The `priceMap` of `getTopRestaurants`. -/
def priceNum : Price → Int
  | .low => 1
  | .mid => 2
  | .high => 3

/-- The inline scoring of `getTopRestaurants`. -/
def scoreRestaurantNew (restaurant : Restaurant) (activeRequest : ActiveRequest) : ℚ :=
  let cuisineTerm : ℚ := match activeRequest.cuisine with
    | some c =>
        if c ≠ "" &&
            restaurant.cuisines.any (fun rc =>
              jsLower rc = jsLower c || lowerIncludes rc c || lowerIncludes c rc) then
          10
        else 0
    | none => 0
  let budgetTerm : ℚ := match activeRequest.budget with
    | some bp =>
        let target := priceOfRange bp.range
        if restaurant.price = target then 5
        else if (priceNum restaurant.price - priceNum target).natAbs = 1 then 2
        else 0
    | none => 0
  let notesTerm : ℚ := match activeRequest.notes with
    | some notes =>
        if notes ≠ "" then
          (List.map (fun tag =>
              if strIncludes (jsLower notes) tag &&
                  (restaurant.vibe.any (fun v => lowerIncludes v tag)
                    || restaurant.highlights.any (fun h => lowerIncludes h tag)) then
                (3 : ℚ)
              else 0)
            ["romantic", "lively", "quiet", "family", "rooftop", "view"]).sum
        else 0
    | none => 0
  cuisineTerm + budgetTerm + notesTerm + restaurant.rating * 0.5

structure TopResult where
  top : Restaurant
  alternatives : List Restaurant
deriving DecidableEq, Repr

/-- The area filter stage of `getTopRestaurants` (area is required: with no
truthy area nothing passes). -/
def getTopRestaurantsFilter (catalog : List Restaurant) (activeRequest : ActiveRequest) :
    List Restaurant :=
  catalog.filter (fun r =>
    match activeRequest.area with
    | some a => a ≠ "" && (lowerIncludes r.area a || lowerIncludes a r.area)
    | none => false)

/-- `getTopRestaurants`. `none` models the undefined `top` of an empty
catalog, which faults at every use site. -/
def getTopRestaurants (catalog : List Restaurant) (activeRequest : ActiveRequest) :
    Option TopResult :=
  let filtered := getTopRestaurantsFilter catalog activeRequest
  if filtered.isEmpty then
    match (sortByKeyDesc (fun r => r.rating) catalog).take 3 with
    | [] => none
    | top :: rest => some ⟨top, rest⟩
  else
    let scored := filtered.map (fun r =>
      ScoredRestaurant.mk r (scoreRestaurantNew r activeRequest))
    match sortByKeyDesc (fun s => s.score) scored with
    | [] => none
    | top :: rest => some ⟨top.restaurant, (rest.take 2).map (fun s => s.restaurant)⟩

/-- `generateReasons` of the newRecommender (part_004 lines 100-122). -/
def generateReasonsNew (restaurant : Restaurant) (activeRequest : ActiveRequest) :
    List String :=
  let r1 : List String := match activeRequest.cuisine with
    | some c =>
        if c ≠ "" &&
            restaurant.cuisines.any (fun rc =>
              jsLower rc = jsLower c || lowerIncludes rc c) then
          ["Great " ++ c ++ " cuisine"]
        else []
    | none => []
  let r2 : List String := if restaurant.rating ≥ 4.5 then ["Highly rated"] else []
  let r3 : List String := match restaurant.highlights with
    | h :: _ => [h]
    | [] => []
  (r1 ++ r2 ++ r3).take 3

/- ------------------------------------------------------------------ -/
/- Discovery policy (part_004 lines 161-205)                           -/
/- ------------------------------------------------------------------ -/

inductive QuestionType
  | area | mealTime | partySize | budget | cuisine | vibe | dietary
deriving DecidableEq, Repr

structure DiscoveryQuestion where
  question : String
  type : QuestionType
deriving DecidableEq, Repr

/-- `canRecommend`: area, partySize and budget set, plus at least one of
non-empty cravingCuisines, vibe, mealTime. Only `slots.budget` is consulted,
never the profile default. -/
def canRecommend (slots : Slots) (_profile : Profile) : Bool :=
  let hasArea := jsStrTruthy slots.area
  let hasPartySize := jsNatTruthy slots.partySize
  let hasBudget := slots.budget.isSome
  let hasCuisineOrVibeOrMealTime :=
    (match slots.cravingCuisines with
      | some l => l.length > 0
      | none => false)
    || slots.vibe.isSome || slots.mealTime.isSome
  hasArea && hasPartySize && hasBudget && hasCuisineOrVibeOrMealTime

/-- `getNextDiscoveryQuestion`: the fixed priority chain of the source. -/
def getNextDiscoveryQuestion (slots : Slots) (_profile : Profile) : DiscoveryQuestion :=
  if !jsStrTruthy slots.area then
    ⟨"What area or neighborhood are you thinking? I can help you find great spots in different locations.", .area⟩
  else if slots.mealTime.isNone then
    ⟨"What meal time are you planning for? Options: breakfast, lunch, dinner, coffee, drinks, or late-night.", .mealTime⟩
  else if !jsNatTruthy slots.partySize then
    ⟨"How many people will be joining you? Just let me know the number.", .partySize⟩
  else if slots.budget.isNone then
    ⟨"What's your budget preference? You can choose: cheap, mid, or high. I'll find the perfect match for you!", .budget⟩
  else if slots.cravingCuisines.isNone && slots.vibe.isNone then
    ⟨"What type of cuisine are you in the mood for, or what kind of atmosphere are you looking for? I'm here to help you find something perfect!", .cuisine⟩
  else if slots.dietary.isNone then
    ⟨"Do you have any dietary requirements or preferences? Just let me know if you have any restrictions or preferences.", .dietary⟩
  else
    ⟨"", .cuisine⟩

/- ------------------------------------------------------------------ -/
/- Deterministic command parsing (src/lib/parser.ts, parseUserMessage) -/
/- ------------------------------------------------------------------ -/

inductive MsgIntent
  | select_option | book_option | more | reject | confirm | change | reset
  | profileCmd | unknown
deriving DecidableEq, Repr

structure ParsedMessage where
  intent : MsgIntent
  optionNumber : Option Nat := none
deriving DecidableEq, Repr

/-- The regex `^book\s+([123])$` of `parseUserMessage`, applied to the
lowercased, trimmed text. -/
def bookOptionMatch (l : List Char) : Option Nat :=
  match l with
  | 'b' :: 'o' :: 'o' :: 'k' :: rest =>
      let ws := rest.takeWhile (fun c => c.isWhitespace)
      let rem := rest.dropWhile (fun c => c.isWhitespace)
      if ws.isEmpty then none
      else match rem with
        | ['1'] => some 1
        | ['2'] => some 2
        | ['3'] => some 3
        | _ => none
  | _ => none

def rejectWords : List String :=
  ["no", "not", "don't", "dont", "wrong", "not that", "too", "reject", "skip"]

/-- The intent recognition of `parseUserMessage`. The function's slot-update
extraction is omitted here: `processMessage` reads only `intent` and
`optionNumber`, and the returned intent is `"unknown"` in the slot-update
case either way. -/
def parseIntent (text : String) : ParsedMessage :=
  let lower := jsTrim (jsLower text)
  if lower = "reset" || strStartsWith lower "reset " then ⟨.reset, none⟩
  else if lower = "profile" || strStartsWith lower "profile " then ⟨.profileCmd, none⟩
  else if lower = "more" || strStartsWith lower "more " then ⟨.more, none⟩
  else match bookOptionMatch lower.toList with
  | some n => ⟨.book_option, some n⟩
  | none =>
    if lower = "1" then ⟨.select_option, some 1⟩
    else if lower = "2" then ⟨.select_option, some 2⟩
    else if lower = "3" then ⟨.select_option, some 3⟩
    else if lower = "confirm" || lower = "yes" || lower = "y" then ⟨.confirm, none⟩
    else if lower = "change" || lower = "no" || lower = "n" then ⟨.change, none⟩
    else if rejectWords.any (fun p => strIncludes lower p) &&
        (strIncludes lower "far" || strIncludes lower "expensive"
          || strIncludes lower "vibe") then
      ⟨.reject, none⟩
    else ⟨.unknown, none⟩

/- ------------------------------------------------------------------ -/
/- Slots-flow controller (part_004 lines 123-857, conversation.ts)     -/
/- ------------------------------------------------------------------ -/

structure RecommendationMapping where
  one : Restaurant
  two : Option Restaurant := none
  three : Option Restaurant := none
deriving DecidableEq, Repr

structure RecommendationsCtx where
  topPick : RestaurantRecommendation
  alternatives : List RestaurantRecommendation
  mapping : RecommendationMapping
  previousTopPickIds : Option (List String) := none
deriving DecidableEq, Repr

structure ConversationContext where
  state : ConversationState
  slots : Slots
  bookingDraft : Option BookingDraft := none
  recommendations : Option RecommendationsCtx := none
  lastQuestion : Option String := none
  lastQuestionType : Option QuestionType := none
deriving DecidableEq, Repr

/-- `newContext.recommendations?.mapping[n]`. -/
def ctxMappingGet (recs : Option RecommendationsCtx) (n : Nat) : Option Restaurant :=
  recs.bind (fun rc =>
    match n with
    | 1 => some rc.mapping.one
    | 2 => rc.mapping.two
    | 3 => rc.mapping.three
    | _ => none)

/-- `formatPrice`. -/
def formatPrice : Price → String
  | .low => "$"
  | .mid => "$$"
  | .high => "$$$"

/-- One alternative line of `formatRecommendationMessage` (`idx` counts from
0, the displayed option number is `idx + 2`). -/
def altLine (idx : Nat) (alt : RestaurantRecommendation) : String :=
  toString (idx + 2) ++ ") " ++ alt.restaurant.name ++ " (" ++ alt.restaurant.area
    ++ ") price: " ++ formatPrice alt.restaurant.price ++ " | "
    ++ String.intercalate ", " alt.restaurant.cuisines ++ " | "
    ++ String.intercalate ", " alt.restaurant.vibe ++ "\n"
    ++ "   Why: " ++ String.intercalate "; " alt.reasons ++ "\n"

/-- `formatRecommendationMessage`. -/
def formatRecommendationMessage (recommendations : Option RecommendationsCtx)
    (slots : Option Slots) : String :=
  match recommendations with
  | none => ""
  | some recs =>
    let topRestaurant := recs.topPick.restaurant
    let noMatchNote : String := match slots with
      | some s =>
        match s.cravingCuisines with
        | some reqs =>
            if reqs.length > 0 then
              if reqs.any (fun rq => topRestaurant.cuisines.any (fun rc =>
                  lowerIncludes rc rq || lowerIncludes rq rc)) then ""
              else
                "I couldn't find " ++ String.intercalate " or " reqs
                  ++ " restaurants matching your criteria. Here are some great alternatives:\n\n"
            else ""
        | none => ""
      | none => ""
    let base := noMatchNote ++ "Top pick:\n" ++ "1) " ++ topRestaurant.name ++ " ("
      ++ topRestaurant.area ++ ") price: " ++ formatPrice topRestaurant.price ++ " | "
      ++ String.intercalate ", " topRestaurant.cuisines ++ " | "
      ++ String.intercalate ", " topRestaurant.vibe ++ "\n"
      ++ "   Why: " ++ String.intercalate "; " recs.topPick.reasons ++ "\n"
    let alts := if recs.alternatives.length > 0 then
        "\nAlternatives:\n"
          ++ String.join (recs.alternatives.enum.map (fun p => altLine p.1 p.2))
      else ""
    base ++ alts
      ++ "\nReply 1/2/3 to pick. Reply 'book 1' to book. Reply 'more' for other options."

/-- The result of `extractSlots` (src/lib/slotExtractor.ts): the partial
slots carry `some` exactly for the keys the extraction response includes. -/
structure SlotExtractionResult where
  slots : Slots
  confidence : ℚ
deriving DecidableEq, Repr

/-- One field of the JS spread `{...slots, ...extraction.slots}`: a key
present in the extraction wins, an absent key keeps the current value. -/
def overrideField {α : Type} (ext cur : Option α) : Option α :=
  match ext with
  | some v => some v
  | none => cur

/-- The merge `newContext.slots = {...newContext.slots, ...extraction.slots}`
of the WELCOME and DISCOVERY branches. -/
def mergeSlots (cur ext : Slots) : Slots where
  mealTime := overrideField ext.mealTime cur.mealTime
  area := overrideField ext.area cur.area
  partySize := overrideField ext.partySize cur.partySize
  budget := overrideField ext.budget cur.budget
  cravingCuisines := overrideField ext.cravingCuisines cur.cravingCuisines
  vibe := overrideField ext.vibe cur.vibe
  dietary := overrideField ext.dietary cur.dietary
  avoid := overrideField ext.avoid cur.avoid

structure TurnOutcome where
  context : ConversationContext
  response : String
  profile : Profile
deriving DecidableEq, Repr

def budgetWord : Budget → String
  | .cheap => "cheap"
  | .mid => "mid"
  | .high => "high"

/-- The lines of the `profile` command's reply. -/
def profileLinesOf (profile : Profile) : List String :=
  let l1 := ["Here's what I remember about your preferences:"]
  let l2 := if profile.cuisinesLiked.length > 0 then
      ["Cuisines you like: " ++ String.intercalate ", "
        (((sortByKeyDesc (fun p => p.2) profile.cuisinesLiked).take 5).map (fun p => p.1))]
    else []
  let l3 := if profile.vibePrefs.length > 0 then
      ["Vibe preferences: " ++ String.intercalate ", "
        (((sortByKeyDesc (fun p => p.2) profile.vibePrefs).take 5).map (fun p => p.1))]
    else []
  let l4 := match profile.budgetDefault with
    | some b => ["Your usual budget: " ++ budgetWord b]
    | none => []
  let l5 := match profile.dietary with
    | some d => if d.length > 0 then ["Dietary preferences: " ++ String.intercalate ", " d] else []
    | none => []
  let l6 := match profile.lastArea with
    | some a => if a ≠ "" then ["Last area you visited: " ++ a] else []
    | none => []
  l1 ++ l2 ++ l3 ++ l4 ++ l5 ++ l6

/-- The restaurant-vibe-tag to slot-vibe category map of the BOOKING_CONFIRM
confirm branch (exact membership tests, not substring). -/
def mapRestVibeToSlotVibe (v : String) : Option String :=
  if ["romantic", "intimate", "elegant"].contains v then some "romantic"
  else if ["lively", "casual", "fun"].contains v then some "lively"
  else if ["quiet", "peaceful", "calm"].contains v then some "quiet"
  else if ["outdoor", "patio", "garden"].contains v then some "outdoor"
  else if ["family-friendly", "family"].contains v then some "family"
  else if ["business", "professional", "upscale"].contains v then some "business"
  else none

/-- The profile update of the BOOKING_CONFIRM confirm branch: increment each
cuisine counter, increment the mapped category counter for each vibe tag,
set `lastArea`. -/
def updateProfileForBooking (profile : Profile) (restaurant : Restaurant) : Profile :=
  let cl := restaurant.cuisines.foldl bump profile.cuisinesLiked
  let vp := restaurant.vibe.foldl (fun acc v =>
    match mapRestVibeToSlotVibe v with
    | some sv => bump acc sv
    | none => acc) profile.vibePrefs
  { profile with cuisinesLiked := cl, vibePrefs := vp, lastArea := some restaurant.area }

def digitVal (c : Char) : Nat := c.toNat - '0'.toNat

def pad2 (n : Nat) : String := if n < 10 then "0" ++ toString n else toString n

/-- JS template interpolation of a possibly-undefined string. -/
def jsDisplayStr : Option String → String
  | some s => s
  | none => "undefined"

/-- The search of `/(\d{1,2}):?(\d{2})?\s*(am|pm|AM|PM)?/` over the raw text:
first digit position wins; up to two digits of hours, an optional colon, two
digits of minutes when both are present, optional whitespace, then one of the
four am/pm spellings. Returns (hours, minutes, lowercased am/pm). -/
def parseTimeCore : List Char → Option (Nat × Nat × Option String)
  | [] => none
  | c :: rest =>
    if c.isDigit then
      let hd : List Char × List Char := match rest with
        | d :: r => if d.isDigit then ([c, d], r) else ([c], d :: r)
        | [] => ([c], [])
      let rest2 : List Char := match hd.2 with
        | ':' :: r => r
        | other => other
      let md : Option Nat × List Char := match rest2 with
        | a :: b :: r =>
            if a.isDigit && b.isDigit then (some (10 * digitVal a + digitVal b), r)
            else (none, rest2)
        | other => (none, other)
      let rest4 := md.2.dropWhile (fun ch => ch.isWhitespace)
      let ampm : Option String := match rest4 with
        | 'a' :: 'm' :: _ => some "am"
        | 'p' :: 'm' :: _ => some "pm"
        | 'A' :: 'M' :: _ => some "am"
        | 'P' :: 'M' :: _ => some "pm"
        | _ => none
      let hours := hd.1.foldl (fun acc ch => acc * 10 + digitVal ch) 0
      some (hours, md.1.getD 0, ampm)
    else parseTimeCore rest

/-- JS `\w`. -/
def isWordChar (c : Char) : Bool := c.isAlphanum || c = '_'

/-- The search of `/\b(\d{1,2})\b/` over the raw text: the first run of one
or two digits delimited by word boundaries. The first argument says whether
the previous character was a word character. -/
def findBoundedNum (prevW : Bool) : List Char → Option Nat
  | [] => none
  | c :: rest =>
    if !prevW && c.isDigit then
      let two : Option Nat := match rest with
        | d :: r =>
            if d.isDigit then
              match r with
              | [] => some (10 * digitVal c + digitVal d)
              | e :: _ => if isWordChar e then none else some (10 * digitVal c + digitVal d)
            else none
        | [] => none
      match two with
      | some n => some n
      | none =>
        let one : Option Nat := match rest with
          | [] => some (digitVal c)
          | d :: _ => if isWordChar d then none else some (digitVal c)
        match one with
        | some n => some n
        | none => findBoundedNum (isWordChar c) rest
    else findBoundedNum (isWordChar c) rest

/-- JS `l.slice(-n)`. -/
def lastN {α : Type} (n : Nat) (l : List α) : List α := l.drop (l.length - n)

/-- The recommendation block repeated in the WELCOME and DISCOVERY branches:
run the engine, build the 1/2/3 mapping, move to RECOMMEND and format the
reply. `none` propagates the engine's empty-catalog fault. -/
def runRecommendBlock (catalog : List Restaurant) (profile : Profile)
    (ctx : ConversationContext) : Option (ConversationContext × String) :=
  match recommendRestaurants catalog ctx.slots profile
      (ctx.recommendations.bind (fun r => r.previousTopPickIds)) with
  | none => none
  | some recs =>
    let mapping : RecommendationMapping :=
      ⟨recs.topPick.restaurant,
        (recs.alternatives.get? 0).map (fun a => a.restaurant),
        (recs.alternatives.get? 1).map (fun a => a.restaurant)⟩
    let newRecs : RecommendationsCtx :=
      ⟨recs.topPick, recs.alternatives, mapping, some [recs.topPick.restaurant.id]⟩
    let ctx2 := { ctx with
      recommendations := some newRecs, state := .RECOMMEND,
      lastQuestion := none, lastQuestionType := none }
    some (ctx2, formatRecommendationMessage (some newRecs) (some ctx.slots))

/-- The WELCOME case of `processMessage`. -/
def stepWelcome (catalog : List Restaurant) (context : ConversationContext)
    (profile : Profile) (extraction : Option SlotExtractionResult) : Option TurnOutcome :=
  let ctx1 := { context with state := .DISCOVERY }
  let slots1 := match extraction with
    | some e => mergeSlots ctx1.slots e.slots
    | none => ctx1.slots
  let ctx2 := { ctx1 with slots := slots1 }
  if canRecommend slots1 profile then
    match runRecommendBlock catalog profile ctx2 with
    | none => none
    | some (ctx3, resp) => some ⟨ctx3, resp, profile⟩
  else
    let q := getNextDiscoveryQuestion slots1 profile
    some ⟨{ ctx2 with lastQuestion := some q.question, lastQuestionType := some q.type },
      (if q.question = "" then
        "What else can you tell me to help you find the perfect restaurant?"
      else q.question), profile⟩

/-- The DISCOVERY case of `processMessage`. -/
def stepDiscovery (catalog : List Restaurant) (context : ConversationContext)
    (profile : Profile) (extraction : Option SlotExtractionResult) : Option TurnOutcome :=
  if canRecommend context.slots profile then
    match runRecommendBlock catalog profile context with
    | none => none
    | some (ctx2, resp) => some ⟨ctx2, resp, profile⟩
  else
    let slots1 := match extraction with
      | some e => mergeSlots context.slots e.slots
      | none => context.slots
    let ctx1 := { context with slots := slots1 }
    if canRecommend slots1 profile then
      match runRecommendBlock catalog profile ctx1 with
      | none => none
      | some (ctx2, resp) => some ⟨ctx2, resp, profile⟩
    else
      let q := getNextDiscoveryQuestion slots1 profile
      some ⟨{ ctx1 with lastQuestion := some q.question, lastQuestionType := some q.type },
        (if q.question = "" then
          "What else can you tell me to help you find the perfect restaurant?"
        else q.question), profile⟩

/-- The RECOMMEND case of `processMessage`. -/
def stepRecommend (catalog : List Restaurant) (parsed : ParsedMessage)
    (context : ConversationContext) (profile : Profile) : Option TurnOutcome :=
  match parsed.intent, parsed.optionNumber with
  | .select_option, some n =>
      (match ctxMappingGet context.recommendations n with
      | some r =>
          some ⟨context,
            "Great choice! " ++ r.name
              ++ " looks perfect. Would you like me to book it? Just reply 'book "
              ++ toString n ++ "' to start, or 'more' to see other options.", profile⟩
      | none =>
          some ⟨context,
            "I don't have that option. Please reply with 1, 2, or 3 to pick a restaurant.",
            profile⟩)
  | .book_option, some n =>
      (match ctxMappingGet context.recommendations n with
      | some r =>
          let dq := "What date would you like to book for? You can say things like 'tomorrow', 'Friday', or a specific date like '2024-12-25'."
          some ⟨{ context with
              bookingDraft := some ⟨r.id, none, none, context.slots.partySize, none⟩,
              state := .BOOKING_COLLECT,
              lastQuestion := some dq, lastQuestionType := none }, dq, profile⟩
      | none =>
          some ⟨context,
            "I don't have that option. Please reply 'book 1', 'book 2', or 'book 3' to book a restaurant.",
            profile⟩)
  | intent, _numOpt =>
      if intent = .more then
        match recommendRestaurants catalog context.slots profile
            (context.recommendations.bind (fun r => r.previousTopPickIds)) with
        | none => none
        | some recs =>
          let totalOptions := 1 + recs.alternatives.length
          let allIds := recs.topPick.restaurant.id
            :: recs.alternatives.map (fun a => a.restaurant.id)
          let previousIds :=
            (context.recommendations.bind (fun r => r.previousTopPickIds)).getD []
          let isStuck := totalOptions ≤ 1 || allIds.all (fun i => previousIds.contains i)
          if isStuck then
            let q := "I don't have many other options with your current criteria. What would you like to change? You can say 'area', 'budget', or 'cuisine', or just tell me the new value (like 'downtown' for area)."
            some ⟨{ context with
                state := .REFINE,
                lastQuestion := some q, lastQuestionType := none }, q, profile⟩
          else
            let mapping : RecommendationMapping :=
              ⟨recs.topPick.restaurant,
                (recs.alternatives.get? 0).map (fun a => a.restaurant),
                (recs.alternatives.get? 1).map (fun a => a.restaurant)⟩
            let newRecs : RecommendationsCtx :=
              ⟨recs.topPick, recs.alternatives, mapping,
                some (lastN 3 (previousIds ++ [recs.topPick.restaurant.id]))⟩
            some ⟨{ context with
                recommendations := some newRecs,
                lastQuestion := none, lastQuestionType := none },
              formatRecommendationMessage (some newRecs) (some context.slots), profile⟩
      else if intent = .reject then
        let q := "I'd love to help you find something better! Is it too far, too expensive, or the wrong vibe?"
        some ⟨{ context with
            state := .REFINE,
            lastQuestion := some q, lastQuestionType := none }, q, profile⟩
      else
        let q := getNextDiscoveryQuestion context.slots profile
        if q.question ≠ "" then
          some ⟨{ context with
              state := .DISCOVERY,
              lastQuestion := some q.question, lastQuestionType := some q.type },
            q.question, profile⟩
        else
          some ⟨context,
            "Reply 1/2/3 to pick. Reply 'book 1' to book. Reply 'more' for other options.",
            profile⟩

/-- The REFINE case of `processMessage`. -/
def stepRefine (userText : String) (context : ConversationContext) (profile : Profile)
    (extraction : Option SlotExtractionResult) : Option TurnOutcome :=
  let lowerText := jsTrim (jsLower userText)
  let clarify := "I'd love to help you adjust your preferences! You can change the area, budget, cuisine, or vibe. What would you like to change?"
  if lowerText = "area" || strIncludes lowerText "area" || strIncludes lowerText "location"
      || strIncludes lowerText "neighborhood" then
    let slots1 := { context.slots with area := none }
    let q := getNextDiscoveryQuestion slots1 profile
    some ⟨{ context with
        state := .DISCOVERY, slots := slots1,
        lastQuestion := some q.question, lastQuestionType := some q.type },
      "Sure! Let's change the area. " ++ q.question, profile⟩
  else if lowerText = "budget" || lowerText = "price" || strIncludes lowerText "budget"
      || strIncludes lowerText "price" then
    let slots1 := { context.slots with budget := none }
    let q := getNextDiscoveryQuestion slots1 profile
    some ⟨{ context with
        state := .DISCOVERY, slots := slots1,
        lastQuestion := some q.question, lastQuestionType := some q.type },
      "Sure! Let's change the budget. " ++ q.question, profile⟩
  else if lowerText = "cuisine" || lowerText = "food" || strIncludes lowerText "cuisine"
      || strIncludes lowerText "food type" then
    let slots1 := { context.slots with cravingCuisines := none }
    let q := getNextDiscoveryQuestion slots1 profile
    some ⟨{ context with
        state := .DISCOVERY, slots := slots1,
        lastQuestion := some q.question, lastQuestionType := some q.type },
      "Sure! Let's change the cuisine. " ++ q.question, profile⟩
  else
    match extraction with
    | none => some ⟨context, clarify, profile⟩
    | some e =>
      if jsStrTruthy e.slots.area then
        let slots1 := { context.slots with area := e.slots.area }
        let q := getNextDiscoveryQuestion slots1 profile
        some ⟨{ context with
            state := .DISCOVERY, slots := slots1,
            lastQuestion := some q.question, lastQuestionType := some q.type },
          "Got it! I've updated the area. " ++ q.question, profile⟩
      else if e.slots.budget.isSome then
        let slots1 := { context.slots with budget := e.slots.budget }
        let q := getNextDiscoveryQuestion slots1 profile
        some ⟨{ context with
            state := .DISCOVERY, slots := slots1,
            lastQuestion := some q.question, lastQuestionType := some q.type },
          "Got it! I've updated the budget. " ++ q.question, profile⟩
      else if (match e.slots.cravingCuisines with
          | some l => decide (l.length > 0)
          | none => false) then
        let slots1 := { context.slots with cravingCuisines := e.slots.cravingCuisines }
        let q := getNextDiscoveryQuestion slots1 profile
        some ⟨{ context with
            state := .DISCOVERY, slots := slots1,
            lastQuestion := some q.question, lastQuestionType := some q.type },
          "Got it! I've updated the cuisine. " ++ q.question, profile⟩
      else if e.slots.vibe.isSome then
        let slots1 := { context.slots with vibe := e.slots.vibe }
        let q := getNextDiscoveryQuestion slots1 profile
        some ⟨{ context with
            state := .DISCOVERY, slots := slots1,
            lastQuestion := some q.question, lastQuestionType := some q.type },
          "Got it! I've updated the vibe. " ++ q.question, profile⟩
      else some ⟨context, clarify, profile⟩

/-- The BOOKING_COLLECT case of `processMessage`. `resolvedDate` is the value
the awaited `parseRelativeDate(userText)` call resolves to (the
date-resolution capability with its deterministic fallback). -/
def stepBookingCollect (catalog : List Restaurant) (userText : String)
    (context : ConversationContext) (profile : Profile) (resolvedDate : String) :
    Option TurnOutcome :=
  match context.bookingDraft with
  | none =>
      some ⟨{ context with
          state := .DISCOVERY, lastQuestion := none, lastQuestionType := none },
        "Booking cancelled. What are you looking for?", profile⟩
  | some draft =>
    if !jsStrTruthy draft.date then
      let draft1 := { draft with date := some resolvedDate }
      let q := "Perfect! What time would you like? You can say things like '7pm', '19:00', or '7:30 PM'."
      some ⟨{ context with
          bookingDraft := some draft1,
          lastQuestion := some q, lastQuestionType := none }, q, profile⟩
    else if !jsStrTruthy draft.time then
      let newTime := match parseTimeCore userText.toList with
        | some (h, m, ampm) =>
            let h2 := if ampm = some "pm" && h < 12 then h + 12
              else if ampm = some "am" && h = 12 then 0
              else h
            pad2 h2 ++ ":" ++ pad2 m
        | none => jsTrim userText
      let draft1 := { draft with time := some newTime }
      if !jsNatTruthy draft1.partySize then
        let q := "How many people will be joining?"
        some ⟨{ context with
            bookingDraft := some draft1,
            lastQuestion := some q, lastQuestionType := some .partySize }, q, profile⟩
      else
        let q := "Any special notes or requests for the restaurant? If not, just say 'no'."
        some ⟨{ context with
            bookingDraft := some draft1,
            lastQuestion := some q, lastQuestionType := none }, q, profile⟩
    else if draft.partySize = none then
      let ps := match findBoundedNum false userText.toList with
        | some n => n
        | none =>
            match context.slots.partySize with
            | some n => if n ≠ 0 then n else 2
            | none => 2
      let draft1 := { draft with partySize := some ps }
      let q := "Any special notes or requests for the restaurant? If not, just say 'no'."
      some ⟨{ context with
          bookingDraft := some draft1,
          lastQuestion := some q, lastQuestionType := none }, q, profile⟩
    else if draft.notes = none then
      let lowerText := jsLower userText
      let notes1 := if lowerText = "no" || lowerText = "n" || jsTrim lowerText = "" then ""
        else jsTrim userText
      let draft1 := { draft with notes := some notes1 }
      let restaurantOpt := catalog.find? (fun r => r.id = draft1.restaurantId)
      let summary := "Here's your booking summary:\nRestaurant: "
        ++ (match restaurantOpt with
          | some r => r.name
          | none => "Unknown")
        ++ "\nDate: " ++ jsDisplayStr draft1.date
        ++ "\nTime: " ++ jsDisplayStr draft1.time
        ++ "\nParty: " ++ (match draft1.partySize with
          | some n => toString n
          | none => "undefined")
        ++ " people\nNotes: " ++ (if notes1 = "" then "None" else notes1)
        ++ "\n\nDoes this look good? Reply 'confirm' to book or 'change' to modify."
      some ⟨{ context with
          state := .BOOKING_CONFIRM, bookingDraft := some draft1,
          lastQuestion := some summary, lastQuestionType := none }, summary, profile⟩
    else
      some ⟨context, "", profile⟩

/-- The BOOKING_CONFIRM case of `processMessage`. The booking record itself
(timestamped id) is persisted outside the model; the profile update is the
observable effect. -/
def stepBookingConfirm (catalog : List Restaurant) (parsed : ParsedMessage)
    (context : ConversationContext) (profile : Profile) : Option TurnOutcome :=
  if parsed.intent = .confirm then
    let ctxReset := { context with
      state := ConversationState.DISCOVERY, bookingDraft := none,
      lastQuestion := none, lastQuestionType := none }
    match context.bookingDraft with
    | some d =>
        if jsStrTruthy d.date && jsStrTruthy d.time && jsNatTruthy d.partySize then
          let restaurantOpt := catalog.find? (fun r => r.id = d.restaurantId)
          let profile1 := match restaurantOpt with
            | some r => updateProfileForBooking profile r
            | none => profile
          let resp := "Perfect! Your booking is confirmed at "
            ++ (match restaurantOpt with
              | some r => r.name
              | none => "the restaurant")
            ++ " for " ++ (match d.partySize with
              | some n => toString n
              | none => "undefined")
            ++ " people on " ++ jsDisplayStr d.date ++ " at " ++ jsDisplayStr d.time ++ "."
            ++ (if jsStrTruthy d.notes then " I've noted: " ++ d.notes.getD "" else "")
            ++ " Enjoy your meal!"
          some ⟨ctxReset, resp, profile1⟩
        else
          some ⟨ctxReset,
            "I'm sorry, there seems to be some missing information. Let's try again.",
            profile⟩
    | none =>
        some ⟨ctxReset,
          "I'm sorry, there seems to be some missing information. Let's try again.",
          profile⟩
  else if parsed.intent = .change then
    let draft1 : BookingDraft :=
      { restaurantId := (context.bookingDraft.map (fun d => d.restaurantId)).getD "",
        date := none, time := none,
        partySize := context.bookingDraft.bind (fun d => d.partySize),
        notes := none }
    let q := "No problem! Let's adjust that. What date would you like?"
    some ⟨{ context with
        state := .BOOKING_COLLECT, bookingDraft := some draft1,
        lastQuestion := some q, lastQuestionType := none }, q, profile⟩
  else
    some ⟨context,
      "Please reply 'confirm' to book or 'change' to modify your booking.", profile⟩

/-- `processMessage` (part_004): one turn of the Slots-flow controller.
`extraction` is the outcome of the one `extractSlots` call the turn makes
(`none` when it throws); `resolvedDate` is the outcome of
`parseRelativeDate(userText)`; `none` as the overall result models an
uncaught exception (empty catalog at a recommendation call). -/
def processMessage (catalog : List Restaurant) (userText : String)
    (context : ConversationContext) (profile : Profile)
    (extraction : Option SlotExtractionResult) (resolvedDate : String) :
    Option TurnOutcome :=
  let lower := jsTrim (jsLower userText)
  if lower = "reset" || strStartsWith lower "reset " then
    some ⟨⟨.DISCOVERY, {}, none, none, none, none⟩,
      "No problem! Let's start fresh. What are you in the mood for and what area are you thinking?",
      profile⟩
  else if lower = "profile" || strStartsWith lower "profile " then
    some ⟨context, String.intercalate "\n" (profileLinesOf profile), profile⟩
  else
    let parsed := parseIntent userText
    match context.state with
    | .WELCOME => stepWelcome catalog context profile extraction
    | .DISCOVERY => stepDiscovery catalog context profile extraction
    | .RECOMMEND => stepRecommend catalog parsed context profile
    | .REFINE => stepRefine userText context profile extraction
    | .BOOKING_COLLECT => stepBookingCollect catalog userText context profile resolvedDate
    | .BOOKING_CONFIRM => stepBookingConfirm catalog parsed context profile

/- ------------------------------------------------------------------ -/
/- Mode-driven controller (normalize-db route file, newConversation)   -/
/- ------------------------------------------------------------------ -/

inductive RequestMode | collecting | recommending | confirming
deriving DecidableEq, Repr

inductive PendingSlotKind | area | cuisine | budget | date | time | partySize
deriving DecidableEq, Repr

/-- `getAvailableAreas` (src/lib/parser.ts): distinct areas in catalog order,
sorted longest-first. -/
def getAvailableAreas (catalog : List Restaurant) : List String :=
  sortByKeyDesc (fun s => s.length) (catalog.map (fun r => r.area)).eraseDups

/-- Modelled from the spec: `getAvailableCuisines` of the catalog module
(src/lib/restaurants.ts is not among the staged sources). The Catalog
"exposes derived enumerations (distinct areas, distinct cuisines, ...)";
embedded as the distinct cuisine names in catalog order. -/
def getAvailableCuisines (catalog : List Restaurant) : List String :=
  ((catalog.map (fun r => r.cuisines)).flatten).eraseDups

/-- `getNextMissingSlot`: the ActiveRequest-flow priority order. -/
def getNextMissingSlot (request : ActiveRequest) : Option PendingSlotKind :=
  if !jsStrTruthy request.area then some .area
  else if !jsStrTruthy request.cuisine then some .cuisine
  else if request.budget.isNone then some .budget
  else if !jsStrTruthy request.date then some .date
  else if !jsStrTruthy request.time then some .time
  else if !jsNatTruthy request.partySize then some .partySize
  else none

/-- `getSlotQuestion`. -/
def getSlotQuestion : Option PendingSlotKind → String
  | some .area => "Which area do you want to eat in?"
  | some .cuisine => "What are you in the mood for?"
  | some .budget => "What budget are we aiming for?"
  | some .date => "Which day?"
  | some .time => "What time?"
  | some .partySize => "How many people?"
  | none => ""

def digitOpt (c : Char) : Option Nat :=
  if c = '1' then some 1 else if c = '2' then some 2 else if c = '3' then some 3 else none

/-- The tail of `pick\s*#?\s*([123])` after the letters `pick`. -/
def pickTail (rest : List Char) : Option Nat :=
  let r1 := rest.dropWhile (fun c => c.isWhitespace)
  let r2 := match r1 with
    | '#' :: t => t
    | other => other
  let r3 := r2.dropWhile (fun c => c.isWhitespace)
  match r3 with
  | [c] => digitOpt c
  | _ => none

/-- The regex `^(pick\s*#?\s*)?([123])$` on the lowercased trimmed text. -/
def parsePick (l : List Char) : Option Nat :=
  match l with
  | [c] => digitOpt c
  | 'p' :: 'i' :: 'c' :: 'k' :: rest => pickTail rest
  | _ => none

/-- The case-insensitive command test
`^(pick\s*#?\s*[123]|continue\s+chat|reset)$` of the confirming branch,
applied to the lowercased trimmed text. -/
def isCommandText (l : List Char) : Bool :=
  (match l with
    | 'p' :: 'i' :: 'c' :: 'k' :: rest => (pickTail rest).isSome
    | _ => false)
  || (match l with
    | 'c' :: 'o' :: 'n' :: 't' :: 'i' :: 'n' :: 'u' :: 'e' :: rest =>
        let ws := rest.takeWhile (fun c => c.isWhitespace)
        let rem := rest.dropWhile (fun c => c.isWhitespace)
        !ws.isEmpty && rem = "chat".toList
    | _ => false)
  || l = "reset".toList

inductive ClassifyIntent
  | greeting_or_offtopic | restaurant_request | slot_answer | refinement | other
deriving DecidableEq, Repr

/-- A `{value, confidence}` pair of the Interpreter's extraction. -/
structure ConfVal where
  value : Option String := none
  confidence : ℚ := 0
deriving DecidableEq, Repr

/-- `classification.extracted`; `budgetRange` stands for
`extracted.budget.range`, the only budget field the controller reads. -/
structure ExtractedInfo where
  area : ConfVal := {}
  cuisine : ConfVal := {}
  budgetRange : Option Nat := none
  partySize : Option Nat := none
  date : ConfVal := {}
  time : ConfVal := {}
deriving DecidableEq, Repr

structure ClassifyResult where
  intent : ClassifyIntent
  extracted : ExtractedInfo
deriving DecidableEq, Repr

/-- The `normalized` field of `validateSlot`: a string or a number. -/
inductive NormVal
  | str (s : String)
  | num (n : Nat)
deriving DecidableEq, Repr

structure ValidateResult where
  normalized : Option NormVal := none
  confidence : ℚ := 0
deriving DecidableEq, Repr

structure MatchInfo where
  matched : Option String := none
  confidence : ℚ := 0
deriving DecidableEq, Repr

/-- `normalizeToDB`'s response; `unavailableArea`/`unavailableCuisine` stand
for `unavailable.area` and `unavailable.cuisine`. -/
structure NormalizeResult where
  areaMatch : MatchInfo := {}
  cuisineMatch : MatchInfo := {}
  unavailableArea : Bool := false
  unavailableCuisine : Bool := false
deriving DecidableEq, Repr

/-- The stored state `processMessageNew` reads through the storage getters. -/
structure NewFlowState where
  request : ActiveRequest
  mode : RequestMode
  pendingSlot : Option PendingSlotKind
  selectedRestaurantId : Option String
deriving DecidableEq, Repr

/-- The state `processMessageNew` leaves in storage, plus the reply. -/
structure NewFlowOutcome where
  request : ActiveRequest
  mode : RequestMode
  pendingSlot : Option PendingSlotKind
  selectedRestaurantId : Option String
  response : String
deriving DecidableEq, Repr

/-- JS `opt || alt` over an optional string. -/
def jsOrStr (o : Option String) (alt : String) : String :=
  match o with
  | some s => if s ≠ "" then s else alt
  | none => alt

/-- The `labels` array `["", "low", "medium", "high", "luxury"]` (an index
outside it is undefined in JS; the range is 1..4 by typing). -/
def rangeLabel (n : Nat) : String :=
  if n = 1 then "low" else if n = 2 then "medium" else if n = 3 then "high"
  else if n = 4 then "luxury" else ""

/-- One numbered line of the new flow's recommendation text. -/
def newRecLine (tag : String) (r : Restaurant) (request : ActiveRequest) : String :=
  tag ++ ") " ++ r.name ++ " (" ++ r.area ++ ") price: " ++ formatPrice r.price
    ++ " | " ++ String.intercalate ", " r.cuisines
    ++ "\n   Why: " ++ String.intercalate "; " (generateReasonsNew r request) ++ "\n"

/-- The catch-branch reply of `processMessageNew`. -/
def newFlowError (st : NewFlowState) : NewFlowOutcome :=
  ⟨st.request, st.mode, st.pendingSlot, st.selectedRestaurantId,
    "Sorry, I encountered an error. Please try again."⟩

/-- The confirming-mode notes turn of `processMessageNew` (the booking
record written on completion is persisted outside the model). -/
def newConfirmingStep (userText : String) (st : NewFlowState) : NewFlowOutcome :=
  let lower := jsTrim (jsLower userText)
  let trimmed := jsTrim userText
  let isSkip := lower = "skip" || lower = "no" || lower = "n"
  if isCommandText (jsLower trimmed).toList then
    ⟨st.request, st.mode, st.pendingSlot, st.selectedRestaurantId,
      "Please reply 'Skip' to skip notes, or type your note."⟩
  else if trimmed = "" && !isSkip then
    ⟨st.request, st.mode, st.pendingSlot, st.selectedRestaurantId,
      "Please reply 'Skip' to skip notes, or type your note."⟩
  else
    ⟨{}, .collecting, some .area, none, "Done. Saved. (POC)"⟩

/-- The classify-extract-normalize main flow of `processMessageNew`. -/
def newMainFlow (catalog : List Restaurant) (st : NewFlowState)
    (classify : Option ClassifyResult) (validate : Option ValidateResult)
    (normalize : Option NormalizeResult) : NewFlowOutcome :=
  match classify with
  | none => newFlowError st
  | some cls =>
    if cls.intent = .greeting_or_offtopic then
      ⟨st.request, st.mode, st.pendingSlot, st.selectedRestaurantId,
        "Hey! I'm your restaurant butler. Tell me what you're craving and I'll suggest the best spots from my list."⟩
    else
      let vvOrErr : Except Unit (Option NormVal) :=
        match st.pendingSlot with
        | some _ =>
            (match validate with
            | none => .error ()
            | some v =>
                .ok (if v.confidence > 0.3 && v.normalized.isSome then v.normalized
                  else none))
        | none => .ok none
      match vvOrErr with
      | .error _ => newFlowError st
      | .ok validatedValue =>
        match normalize with
        | none => newFlowError st
        | some nrm =>
          if nrm.unavailableArea && jsStrTruthy cls.extracted.area.value then
            ⟨st.request, st.mode, some .area, st.selectedRestaurantId,
              "I don't have " ++ cls.extracted.area.value.getD ""
                ++ " in my list yet. Want one of these instead: "
                ++ String.intercalate ", " ((getAvailableAreas catalog).take 3) ++ "?"⟩
          else if nrm.unavailableCuisine && jsStrTruthy cls.extracted.cuisine.value then
            ⟨st.request, st.mode, some .cuisine, st.selectedRestaurantId,
              "I don't have " ++ cls.extracted.cuisine.value.getD ""
                ++ " spots in my list yet. I do have: "
                ++ String.intercalate ", " ((getAvailableCuisines catalog).take 3) ++ "."⟩
          else
            let req1 := match st.pendingSlot, validatedValue with
              | some .area, some (.str s) => { st.request with area := some s }
              | some .cuisine, some (.str s) => { st.request with cuisine := some s }
              | some .budget, some (.num n) =>
                  if 1 ≤ n && n ≤ 4 then
                    { st.request with budget := some ⟨n, rangeLabel n⟩ }
                  else st.request
              | some .partySize, some (.num n) => { st.request with partySize := some n }
              | some .date, some (.str s) => { st.request with date := some s }
              | some .time, some (.str s) => { st.request with time := some s }
              | _, _ => st.request
            let req2 := if !jsStrTruthy req1.area && jsStrTruthy nrm.areaMatch.matched
                && nrm.areaMatch.confidence > 0.5 then
                { req1 with area := nrm.areaMatch.matched }
              else req1
            let req3 := if !jsStrTruthy req2.cuisine && jsStrTruthy nrm.cuisineMatch.matched
                && nrm.cuisineMatch.confidence > 0.5 then
                { req2 with cuisine := nrm.cuisineMatch.matched }
              else req2
            let req4 := if req3.budget.isNone
                && (match cls.extracted.budgetRange with
                  | some n => n ≠ 0
                  | none => false) then
                { req3 with budget := some ⟨cls.extracted.budgetRange.getD 0,
                  rangeLabel (cls.extracted.budgetRange.getD 0)⟩ }
              else req3
            let req5 := if !jsNatTruthy req4.partySize
                && (match cls.extracted.partySize with
                  | some n => n ≠ 0
                  | none => false) then
                { req4 with partySize := cls.extracted.partySize }
              else req4
            let req6 := if !jsStrTruthy req5.date && jsStrTruthy cls.extracted.date.value
                && cls.extracted.date.confidence > 0.5 then
                { req5 with date := cls.extracted.date.value }
              else req5
            let req7 := if !jsStrTruthy req6.time && jsStrTruthy cls.extracted.time.value
                && cls.extracted.time.confidence > 0.5 then
                { req6 with time := cls.extracted.time.value }
              else req6
            match getNextMissingSlot req7 with
            | none =>
                (match getTopRestaurants catalog req7 with
                | none => newFlowError st
                | some recs =>
                    let recText := "Top pick:\n" ++ newRecLine "1" recs.top req7
                      ++ (match recs.alternatives.get? 0 with
                        | some a1 => "\nAlternatives:\n" ++ newRecLine "2" a1 req7
                        | none => "")
                      ++ (match recs.alternatives.get? 1 with
                        | some a2 => newRecLine "3" a2 req7
                        | none => "")
                    ⟨req7, .recommending, none, st.selectedRestaurantId, recText⟩)
            | some nextSlot =>
                ⟨req7, st.mode, some nextSlot, st.selectedRestaurantId,
                  getSlotQuestion (some nextSlot)⟩

/-- `processMessageNew` (the mode-driven flow): one turn. `classify`,
`validate` and `normalize` are the outcomes of the three Interpreter calls
(`none` = the call throws, landing in the catch branch). -/
def processMessageNew (catalog : List Restaurant) (userText : String)
    (st : NewFlowState) (classify : Option ClassifyResult)
    (validate : Option ValidateResult) (normalize : Option NormalizeResult) :
    NewFlowOutcome :=
  let lower := jsTrim (jsLower userText)
  if lower = "reset" then
    ⟨{}, .collecting, some .area, none,
      "Starting fresh. Which area do you want to eat in?"⟩
  else if st.mode = .recommending && (lower = "continue chat" || lower = "continue") then
    ⟨st.request, .collecting, st.pendingSlot, st.selectedRestaurantId,
      "What would you like to change?"⟩
  else
    let pickSel : Option Restaurant :=
      if st.mode = .recommending then
        match parsePick lower.toList with
        | some num =>
            (match getTopRestaurants catalog st.request with
            | some recs => (recs.top :: recs.alternatives).get? (num - 1)
            | none => none)
        | none => none
      else none
    match pickSel with
    | some selected =>
        if !selected.bookingAvailable then
          ⟨st.request, .collecting, st.pendingSlot, none,
            "You can just head over—no booking needed."
              ++ (match selected.discountCode with
                | some code =>
                    " Present this code at the door for a discount: **" ++ code ++ "**"
                | none => "")⟩
        else
          ⟨st.request, .confirming, st.pendingSlot, some selected.id,
            "Cool. Confirming " ++ selected.name ++ " for "
              ++ (match st.request.partySize with
                | some n => if n ≠ 0 then toString n else "your party"
                | none => "your party")
              ++ " on " ++ jsOrStr st.request.date "your date"
              ++ " at " ++ jsOrStr st.request.time "your time"
              ++ ". Reply 'Skip' to skip, or type your note."⟩
    | none =>
      if st.mode = .confirming then newConfirmingStep userText st
      else newMainFlow catalog st classify validate normalize

/- ------------------------------------------------------------------ -/
/- Sample catalog entries used by concrete witnesses                   -/
/- ------------------------------------------------------------------ -/

def rAlpha : Restaurant :=
  ⟨"r-alpha", "Alpha", "Downtown", "City", ["Italian"], .mid, ["romantic"],
    ["vegetarian"], 4.5, ["Nice terrace"], true, none⟩

def rBeta : Restaurant :=
  ⟨"r-beta", "Beta", "Marina", "City", ["Japanese"], .high, ["lively"],
    [], 4.8, ["Sea view"], false, some "WALK10"⟩

/- ------------------------------------------------------------------ -/
/- C10: diversification with no previously shown ids                   -/
/- ------------------------------------------------------------------ -/

/-- C10: when the previously-shown id list is absent or empty,
`diversifyRecommendations` is the identity on its input: same items, same
scores, same order. -/
theorem diversify_no_previous_identity (scored : List ScoredRestaurant) :
    diversifyRecommendations scored none = scored
      ∧ diversifyRecommendations scored (some []) = scored := by
  constructor <;> simp [diversifyRecommendations]

/- ------------------------------------------------------------------ -/
/- C6: diversification demotes by exactly 0.3 and re-sorts             -/
/- ------------------------------------------------------------------ -/

/-- C6: for a non-empty previously-shown list, `diversifyRecommendations`
returns a permutation of the input with every listed item's score multiplied
by exactly 0.3 and every other item unchanged, sorted descending by the
adjusted scores. -/
theorem diversify_demotes_and_sorts (scored : List ScoredRestaurant)
    (prev : List String) (hprev : prev ≠ []) :
    (diversifyRecommendations scored (some prev)).Perm
        (scored.map (diversifyAdjust prev))
      ∧ (∀ item ∈ scored, item.restaurant.id ∈ prev →
          ScoredRestaurant.mk item.restaurant (item.score * 0.3) ∈
            diversifyRecommendations scored (some prev))
      ∧ (∀ item ∈ scored, item.restaurant.id ∉ prev →
          item ∈ diversifyRecommendations scored (some prev))
      ∧ List.Sorted (fun a b : ScoredRestaurant => b.score ≤ a.score)
          (diversifyRecommendations scored (some prev)) := by
  have hlen : ¬ prev.length = 0 := by
    simpa [List.length_eq_zero] using hprev
  have hdef : diversifyRecommendations scored (some prev) =
      sortByKeyDesc (fun s => s.score) (scored.map (diversifyAdjust prev)) := by
    simp [diversifyRecommendations, hlen]
  refine ⟨?_, ?_, ?_, ?_⟩
  · rw [hdef]; exact sortByKeyDesc_perm _ _
  · intro item hmem hid
    rw [hdef]
    have : diversifyAdjust prev item =
        ScoredRestaurant.mk item.restaurant (item.score * 0.3) := by
      simp [diversifyAdjust, hid]
    rw [(sortByKeyDesc_perm (fun s : ScoredRestaurant => s.score)
      (scored.map (diversifyAdjust prev))).mem_iff]
    exact this ▸ List.mem_map_of_mem _ hmem
  · intro item hmem hid
    rw [hdef]
    have : diversifyAdjust prev item = item := by
      simp [diversifyAdjust, hid]
    rw [(sortByKeyDesc_perm (fun s : ScoredRestaurant => s.score)
      (scored.map (diversifyAdjust prev))).mem_iff]
    exact this ▸ List.mem_map_of_mem _ hmem
  · rw [hdef]; exact sortByKeyDesc_sorted _ _

theorem diversify_demotes_and_sorts_witness :
    ScoredRestaurant.mk rAlpha ((6 : ℚ) * 0.3) ∈
      diversifyRecommendations [⟨rAlpha, 6⟩, ⟨rBeta, 5⟩] (some ["r-alpha"]) :=
  (diversify_demotes_and_sorts [⟨rAlpha, 6⟩, ⟨rBeta, 5⟩] ["r-alpha"]
    (by decide)).2.1 ⟨rAlpha, 6⟩ (by simp) (by decide)

/- ------------------------------------------------------------------ -/
/- C7: the score is the stated additive sum                            -/
/- ------------------------------------------------------------------ -/

/-- 3 points per requested cuisine that bidirectionally substring-matches a
catalog cuisine (claim wording). -/
def specCuisinePoints (r : Restaurant) (s : Slots) : ℚ :=
  (((s.cravingCuisines.getD []).filter (fun c => cuisineMatchesRestaurant r c)).length : ℚ) * 3

/-- 2 points when a catalog vibe tag maps via the fixed category map to the
requested vibe (claim wording). -/
def specVibePoints (r : Restaurant) (s : Slots) : ℚ :=
  match s.vibe with
  | some v => if vibeMatchesRestaurant r v then 2 else 0
  | none => 0

/-- 1 point when the price equals the explicitly set budget (claim wording,
with the fixed cheap-to-low identification). -/
def specBudgetPoints (r : Restaurant) (s : Slots) : ℚ :=
  match s.budget with
  | some b => if r.price = mapBudgetToPrice b then 1 else 0
  | none => 0

/-- 1 point per requested dietary tag that substring-matches a catalog
dietary tag (claim wording). -/
def specDietaryPoints (r : Restaurant) (s : Slots) : ℚ :=
  (((s.dietary.getD []).filter (fun d =>
    r.dietary.any (fun rd => lowerIncludes rd d))).length : ℚ)

/-- 0.5 times the profile like-count for each requested cuisine and for the
requested vibe (claim wording). -/
def specProfileBoostPoints (s : Slots) (p : Profile) : ℚ :=
  ((s.cravingCuisines.getD []).map
      (fun c => (getCount p.cuisinesLiked c : ℚ) * 0.5)).sum
    + (match s.vibe with
      | some v => (getCount p.vibePrefs (vibeKey v) : ℚ) * 0.5
      | none => 0)

/-- 0.5 times the rating, unconditionally (claim wording). -/
def specRatingPoints (r : Restaurant) : ℚ := r.rating * 0.5

/-- C7: `scoreRestaurant` returns exactly the additive sum of the six
components the spec lists. -/
theorem scoreRestaurant_additive (r : Restaurant) (s : Slots) (p : Profile) :
    scoreRestaurant r s p =
      specCuisinePoints r s + specVibePoints r s + specBudgetPoints r s
        + specDietaryPoints r s + specProfileBoostPoints s p + specRatingPoints r := by
  obtain ⟨mt, ar, ps, bu, cc, vb, di, av⟩ := s
  unfold scoreRestaurant specCuisinePoints specVibePoints specBudgetPoints
    specDietaryPoints specProfileBoostPoints specRatingPoints
  rcases cc with _ | ⟨_ | ⟨c, cs⟩⟩ <;> rcases di with _ | ⟨_ | ⟨d, ds⟩⟩ <;>
    rcases vb with _ | v <;> rcases bu with _ | b <;>
    simp <;> ring

/- ------------------------------------------------------------------ -/
/- C1: completion predicate vs discovery policy                        -/
/- ------------------------------------------------------------------ -/

def c1Slots : Slots :=
  { area := some "Beirut", partySize := some 2, budget := some .mid,
    vibe := some .romantic }

/-- C1 counterexample: a Slots value satisfying `canRecommend` on which
`getNextDiscoveryQuestion` still asks (for the meal time): predicate and
policy disagree. -/
theorem canRecommend_policy_disagree :
    canRecommend c1Slots {} = true
      ∧ (getNextDiscoveryQuestion c1Slots {}).question ≠ "" := by
  constructor
  · decide
  · decide

/-- C1 amended: the policy yields the empty question on a `canRecommend`
Slots value only under the additional conditions the policy checks: mealTime
set, cravingCuisines or vibe present, dietary present. -/
theorem canRecommend_policy_agree_amended (s : Slots) (p : Profile)
    (hc : canRecommend s p = true) (hm : s.mealTime.isSome = true)
    (hcv : s.cravingCuisines.isSome = true ∨ s.vibe.isSome = true)
    (hd : s.dietary.isSome = true) :
    (getNextDiscoveryQuestion s p).question = "" := by
  unfold canRecommend at hc
  simp only [Bool.and_eq_true] at hc
  obtain ⟨⟨⟨ha, hp2⟩, hb⟩, -⟩ := hc
  unfold getNextDiscoveryQuestion
  have hm' : s.mealTime.isNone = false := by
    cases h : s.mealTime <;> simp_all
  have hb' : s.budget.isNone = false := by
    cases h : s.budget <;> simp_all
  have hd' : s.dietary.isNone = false := by
    cases h : s.dietary <;> simp_all
  have hcv' : (s.cravingCuisines.isNone && s.vibe.isNone) = false := by
    rcases hcv with h | h
    · cases hh : s.cravingCuisines <;> simp_all
    · cases hh : s.vibe <;> simp_all
  simp [ha, hp2, hb', hm', hd', hcv']

def c1FullSlots : Slots :=
  { area := some "Beirut", partySize := some 2, budget := some .mid,
    mealTime := some .dinner, vibe := some .romantic, dietary := some [] }

theorem canRecommend_policy_agree_amended_witness :
    canRecommend c1FullSlots {} = true
      ∧ (getNextDiscoveryQuestion c1FullSlots {}).question = "" :=
  ⟨by decide,
    canRecommend_policy_agree_amended c1FullSlots {} (by decide) (by decide)
      (Or.inr (by decide)) (by decide)⟩

/- ------------------------------------------------------------------ -/
/- C8: fixed priority order of the discovery policy                    -/
/- ------------------------------------------------------------------ -/

/-- Whether the priority-order slot at index `i` (area, mealTime, partySize,
budget, cuisine-or-vibe, dietary) is missing, in the sense the policy tests. -/
def prioMissing (s : Slots) : Nat → Bool
  | 0 => !jsStrTruthy s.area
  | 1 => s.mealTime.isNone
  | 2 => !jsNatTruthy s.partySize
  | 3 => s.budget.isNone
  | 4 => s.cravingCuisines.isNone && s.vibe.isNone
  | 5 => s.dietary.isNone
  | _ => false

/-- The question type the policy asks for priority index `i`. -/
def prioType : Nat → QuestionType
  | 0 => .area
  | 1 => .mealTime
  | 2 => .partySize
  | 3 => .budget
  | 4 => .cuisine
  | _ => .dietary

/-- C8: when an earlier-priority and a later-priority slot are both missing
(and nothing before the earlier one is), the policy asks for the earlier
one. -/
theorem discovery_priority_order (s : Slots) (p : Profile) (e l : Nat)
    (hel : e < l) (hl5 : l ≤ 5) (hme : prioMissing s e = true)
    (_hml : prioMissing s l = true)
    (hearlier : ∀ k, k < e → prioMissing s k = false) :
    (getNextDiscoveryQuestion s p).type = prioType e := by
  have he : e < 5 := lt_of_lt_of_le hel hl5
  unfold getNextDiscoveryQuestion
  interval_cases e
  · simp_all [prioMissing, prioType]
  · have h0 := hearlier 0 (by omega)
    simp_all [prioMissing, prioType, Option.isSome_iff_ne_none]
  · have h0 := hearlier 0 (by omega)
    have h1 := hearlier 1 (by omega)
    simp_all [prioMissing, prioType, Option.isSome_iff_ne_none]
  · have h0 := hearlier 0 (by omega)
    have h1 := hearlier 1 (by omega)
    have h2 := hearlier 2 (by omega)
    simp_all [prioMissing, prioType, Option.isSome_iff_ne_none]
  · have h0 := hearlier 0 (by omega)
    have h1 := hearlier 1 (by omega)
    have h2 := hearlier 2 (by omega)
    have h3 := hearlier 3 (by omega)
    simp_all [prioMissing, prioType, Option.isSome_iff_ne_none]

/-- C8 witness: with only the budget set, the next question is the area
question, not the mealTime question. -/
theorem discovery_priority_order_witness :
    prioMissing { budget := some .mid : Slots } 0 = true
      ∧ prioMissing { budget := some .mid : Slots } 1 = true
      ∧ (getNextDiscoveryQuestion { budget := some .mid : Slots } {}).type =
          QuestionType.area :=
  ⟨by decide, by decide,
    discovery_priority_order { budget := some .mid } {} 0 1 (by decide) (by decide)
      (by decide) (by decide) (fun k hk => absurd hk (by omega))⟩

/- ------------------------------------------------------------------ -/
/- C5: empty filter falls back to the full catalog                     -/
/- ------------------------------------------------------------------ -/

/-- C5: with a non-empty catalog, a filter stage that yields zero items
still produces a recommendation: `recommendRestaurants` scores the whole
catalog and returns a top pick from it (with no alternatives), and
`getTopRestaurants` returns the head of the globally highest-rated three. -/
theorem fallback_never_empty :
    (∀ (catalog : List Restaurant) (slots : Slots) (profile : Profile)
        (prev : Option (List String)), catalog ≠ [] →
      filterRestaurants catalog slots profile = [] →
      ∃ res, recommendRestaurants catalog slots profile prev = some res
        ∧ res.topPick.restaurant ∈ catalog ∧ res.alternatives = [])
    ∧ (∀ (catalog : List Restaurant) (request : ActiveRequest), catalog ≠ [] →
      getTopRestaurantsFilter catalog request = [] →
      ∃ res, getTopRestaurants catalog request = some res
        ∧ res.top ∈ catalog
        ∧ res.top :: res.alternatives =
            (sortByKeyDesc (fun r => r.rating) catalog).take 3) := by
  constructor
  · intro catalog slots profile prev hcat hfil
    have hlen : (sortByKeyDesc (fun s : ScoredRestaurant => s.score)
        (catalog.map (fun r => ScoredRestaurant.mk r (scoreRestaurant r slots profile)))).length
        = catalog.length := by
      rw [(sortByKeyDesc_perm _ _).length_eq, List.length_map]
    cases happ : sortByKeyDesc (fun s : ScoredRestaurant => s.score)
        (catalog.map (fun r => ScoredRestaurant.mk r (scoreRestaurant r slots profile))) with
    | nil =>
        rw [happ] at hlen
        exact absurd (List.length_eq_zero.mp hlen.symm) hcat
    | cons top rest =>
        have h1 : top ∈ sortByKeyDesc (fun s : ScoredRestaurant => s.score)
            (catalog.map (fun r => ScoredRestaurant.mk r (scoreRestaurant r slots profile))) := by
          rw [happ]; exact List.mem_cons_self _ _
        have h2 := sortByKeyDesc_mem _ _ _ h1
        obtain ⟨r, hr, hEq⟩ := List.mem_map.mp h2
        cases hEq
        refine ⟨⟨⟨r, generateReasons r slots profile⟩, []⟩, ?_, hr, rfl⟩
        unfold recommendRestaurants
        rw [hfil]
        simp only [List.isEmpty_nil, if_true, happ]
  · intro catalog request hcat hfil
    have hlen : (sortByKeyDesc (fun r : Restaurant => r.rating) catalog).length
        = catalog.length := (sortByKeyDesc_perm _ _).length_eq
    cases hsort : sortByKeyDesc (fun r : Restaurant => r.rating) catalog with
    | nil =>
        rw [hsort] at hlen
        exact absurd (List.length_eq_zero.mp hlen.symm) hcat
    | cons x xs =>
        have happ : (sortByKeyDesc (fun r : Restaurant => r.rating) catalog).take 3
            = x :: xs.take 2 := by rw [hsort]; rfl
        have htop : x ∈ catalog := by
          apply sortByKeyDesc_mem (fun r : Restaurant => r.rating) catalog
          rw [hsort]; exact List.mem_cons_self _ _
        refine ⟨⟨x, xs.take 2⟩, ?_, htop, ?_⟩
        · unfold getTopRestaurants
          rw [hfil]
          simp only [List.isEmpty_nil, if_true, happ]
        · simp [hsort]

def c5Slots : Slots := { budget := some .high }

def c5Request : ActiveRequest := { area := some "Nowhere" }

theorem fallback_never_empty_witness :
    filterRestaurants [rAlpha] c5Slots {} = []
      ∧ (∃ res, recommendRestaurants [rAlpha] c5Slots {} none = some res
          ∧ res.topPick.restaurant ∈ [rAlpha] ∧ res.alternatives = [])
      ∧ getTopRestaurantsFilter [rAlpha] c5Request = []
      ∧ (∃ res, getTopRestaurants [rAlpha] c5Request = some res
          ∧ res.top ∈ [rAlpha]
          ∧ res.top :: res.alternatives =
              (sortByKeyDesc (fun r => r.rating) [rAlpha]).take 3) :=
  ⟨by decide,
    fallback_never_empty.1 [rAlpha] c5Slots {} none (by decide) (by decide),
    by decide,
    fallback_never_empty.2 [rAlpha] c5Request (by decide) (by decide)⟩

/- ------------------------------------------------------------------ -/
/- Controller dispatch facts                                           -/
/- ------------------------------------------------------------------ -/

theorem parseIntent_reset_cond (text : String)
    (h : (decide (jsTrim (jsLower text) = "reset")
        || strStartsWith (jsTrim (jsLower text)) "reset ") = true) :
    parseIntent text = ⟨.reset, none⟩ := by
  simp only [parseIntent]
  rw [if_pos h]

theorem parseIntent_profile_cond (text : String)
    (h1 : (decide (jsTrim (jsLower text) = "reset")
        || strStartsWith (jsTrim (jsLower text)) "reset ") = false)
    (h2 : (decide (jsTrim (jsLower text) = "profile")
        || strStartsWith (jsTrim (jsLower text)) "profile ") = true) :
    parseIntent text = ⟨.profileCmd, none⟩ := by
  simp only [parseIntent]
  rw [if_neg (by simp [h1]), if_pos h2]

/-- With neither the reset nor the profile command recognized, a turn runs
the state machine case for the current state. -/
theorem processMessage_dispatch (catalog : List Restaurant) (userText : String)
    (context : ConversationContext) (profile : Profile)
    (extraction : Option SlotExtractionResult) (resolvedDate : String)
    (hr : (parseIntent userText).intent ≠ .reset)
    (hp : (parseIntent userText).intent ≠ .profileCmd) :
    processMessage catalog userText context profile extraction resolvedDate =
      (match context.state with
      | .WELCOME => stepWelcome catalog context profile extraction
      | .DISCOVERY => stepDiscovery catalog context profile extraction
      | .RECOMMEND => stepRecommend catalog (parseIntent userText) context profile
      | .REFINE => stepRefine userText context profile extraction
      | .BOOKING_COLLECT => stepBookingCollect catalog userText context profile resolvedDate
      | .BOOKING_CONFIRM => stepBookingConfirm catalog (parseIntent userText) context profile) := by
  have h1 : (decide (jsTrim (jsLower userText) = "reset")
      || strStartsWith (jsTrim (jsLower userText)) "reset ") = false := by
    rcases Bool.eq_false_or_eq_true (decide (jsTrim (jsLower userText) = "reset")
      || strStartsWith (jsTrim (jsLower userText)) "reset ") with h | h
    · rw [parseIntent_reset_cond userText h] at hr
      exact absurd rfl hr
    · exact h
  have h2 : (decide (jsTrim (jsLower userText) = "profile")
      || strStartsWith (jsTrim (jsLower userText)) "profile ") = false := by
    rcases Bool.eq_false_or_eq_true (decide (jsTrim (jsLower userText) = "profile")
      || strStartsWith (jsTrim (jsLower userText)) "profile ") with h | h
    · rw [parseIntent_profile_cond userText h1 h] at hp
      exact absurd rfl hp
    · exact h
  simp only [processMessage]
  rw [if_neg (by simp [h1]), if_neg (by simp [h2])]

theorem stepWelcome_profile (catalog : List Restaurant) (context : ConversationContext)
    (profile : Profile) (extraction : Option SlotExtractionResult) (out : TurnOutcome)
    (h : stepWelcome catalog context profile extraction = some out) :
    out.profile = profile := by
  simp only [stepWelcome] at h
  split at h
  · split at h
    · exact Option.noConfusion h
    · injection h with h2; subst h2; rfl
  · injection h with h2; subst h2; rfl

theorem stepDiscovery_profile (catalog : List Restaurant) (context : ConversationContext)
    (profile : Profile) (extraction : Option SlotExtractionResult) (out : TurnOutcome)
    (h : stepDiscovery catalog context profile extraction = some out) :
    out.profile = profile := by
  simp only [stepDiscovery] at h
  split at h
  · split at h
    · exact Option.noConfusion h
    · injection h with h2; subst h2; rfl
  · split at h
    · split at h
      · exact Option.noConfusion h
      · injection h with h2; subst h2; rfl
    · injection h with h2; subst h2; rfl

theorem stepRecommend_profile (catalog : List Restaurant) (parsed : ParsedMessage)
    (context : ConversationContext) (profile : Profile) (out : TurnOutcome)
    (h : stepRecommend catalog parsed context profile = some out) :
    out.profile = profile := by
  simp only [stepRecommend] at h
  split at h
  · split at h
    · injection h with h2; subst h2; rfl
    · injection h with h2; subst h2; rfl
  · split at h
    · injection h with h2; subst h2; rfl
    · injection h with h2; subst h2; rfl
  · split at h
    · split at h
      · exact Option.noConfusion h
      · split at h
        · injection h with h2; subst h2; rfl
        · injection h with h2; subst h2; rfl
    · split at h
      · injection h with h2; subst h2; rfl
      · split at h
        · injection h with h2; subst h2; rfl
        · injection h with h2; subst h2; rfl

theorem stepRefine_profile (userText : String) (context : ConversationContext)
    (profile : Profile) (extraction : Option SlotExtractionResult) (out : TurnOutcome)
    (h : stepRefine userText context profile extraction = some out) :
    out.profile = profile := by
  simp only [stepRefine] at h
  split at h
  · injection h with h2; subst h2; rfl
  · split at h
    · injection h with h2; subst h2; rfl
    · split at h
      · injection h with h2; subst h2; rfl
      · split at h
        · injection h with h2; subst h2; rfl
        · split at h
          · injection h with h2; subst h2; rfl
          · split at h
            · injection h with h2; subst h2; rfl
            · split at h
              · injection h with h2; subst h2; rfl
              · split at h
                · injection h with h2; subst h2; rfl
                · injection h with h2; subst h2; rfl

theorem stepBookingCollect_profile (catalog : List Restaurant) (userText : String)
    (context : ConversationContext) (profile : Profile) (resolvedDate : String)
    (out : TurnOutcome)
    (h : stepBookingCollect catalog userText context profile resolvedDate = some out) :
    out.profile = profile := by
  simp only [stepBookingCollect] at h
  split at h
  · injection h with h2; subst h2; rfl
  · split at h
    · injection h with h2; subst h2; rfl
    · split at h
      · split at h
        · injection h with h2; subst h2; rfl
        · injection h with h2; subst h2; rfl
      · split at h
        · injection h with h2; subst h2; rfl
        · split at h
          · injection h with h2; subst h2; rfl
          · injection h with h2; subst h2; rfl

theorem stepBookingConfirm_profile (catalog : List Restaurant) (parsed : ParsedMessage)
    (context : ConversationContext) (profile : Profile) (out : TurnOutcome)
    (h : stepBookingConfirm catalog parsed context profile = some out) :
    out.profile = profile ∨
    ∃ d r, parsed.intent = .confirm
      ∧ context.bookingDraft = some d
      ∧ (jsStrTruthy d.date && jsStrTruthy d.time && jsNatTruthy d.partySize) = true
      ∧ catalog.find? (fun rr => rr.id = d.restaurantId) = some r
      ∧ out.profile = updateProfileForBooking profile r := by
  simp only [stepBookingConfirm] at h
  split at h
  · rename_i hconf
    split at h
    · rename_i d hd
      split at h
      · rename_i htr
        cases hf : catalog.find? (fun rr => rr.id = d.restaurantId) with
        | none =>
            left
            rw [hf] at h
            injection h with h2; subst h2; rfl
        | some r =>
            right
            refine ⟨d, r, hconf, hd, htr, hf, ?_⟩
            rw [hf] at h
            injection h with h2; subst h2; rfl
      · left; injection h with h2; subst h2; rfl
    · left; injection h with h2; subst h2; rfl
  · split at h
    · left; injection h with h2; subst h2; rfl
    · left; injection h with h2; subst h2; rfl

/-- The conditions under which a turn reaches the profile-updating confirm
path: BOOKING_CONFIRM state, confirm intent, a complete draft, and a catalog
hit for the drafted restaurant. -/
def confirmPath (catalog : List Restaurant) (userText : String)
    (context : ConversationContext) : Bool :=
  decide (context.state = .BOOKING_CONFIRM)
    && decide ((parseIntent userText).intent = .confirm)
    && (match context.bookingDraft with
      | some d => jsStrTruthy d.date && jsStrTruthy d.time && jsNatTruthy d.partySize
          && (catalog.find? (fun rr => rr.id = d.restaurantId)).isSome
      | none => false)

theorem processMessage_profile_char (catalog : List Restaurant) (userText : String)
    (context : ConversationContext) (profile : Profile)
    (extraction : Option SlotExtractionResult) (resolvedDate : String) (out : TurnOutcome)
    (h : processMessage catalog userText context profile extraction resolvedDate = some out) :
    out.profile = profile ∨
    ∃ d r, context.state = .BOOKING_CONFIRM
      ∧ (parseIntent userText).intent = .confirm
      ∧ context.bookingDraft = some d
      ∧ (jsStrTruthy d.date && jsStrTruthy d.time && jsNatTruthy d.partySize) = true
      ∧ catalog.find? (fun rr => rr.id = d.restaurantId) = some r
      ∧ out.profile = updateProfileForBooking profile r := by
  simp only [processMessage] at h
  split at h
  · left; injection h with h2; subst h2; rfl
  · split at h
    · left; injection h with h2; subst h2; rfl
    · split at h
      · left; exact stepWelcome_profile _ _ _ _ _ h
      · left; exact stepDiscovery_profile _ _ _ _ _ h
      · left; exact stepRecommend_profile _ _ _ _ _ h
      · left; exact stepRefine_profile _ _ _ _ _ h
      · left; exact stepBookingCollect_profile _ _ _ _ _ _ h
      · rename_i hstate
        rcases stepBookingConfirm_profile _ _ _ _ _ h with hL | ⟨d, r, hconf, hd, htr, hf, hup⟩
        · left; exact hL
        · right; exact ⟨d, r, hstate, hconf, hd, htr, hf, hup⟩

theorem vibeFold_eq (vl : List String) (acc : List (String × Nat)) :
    vl.foldl (fun acc2 v =>
      match mapRestVibeToSlotVibe v with
      | some sv => bump acc2 sv
      | none => acc2) acc
    = (vl.filterMap mapRestVibeToSlotVibe).foldl bump acc := by
  induction vl generalizing acc with
  | nil => rfl
  | cons v t ih =>
      cases hv : mapRestVibeToSlotVibe v <;>
        simp [List.filterMap_cons, hv, ih]

/- ------------------------------------------------------------------ -/
/- C9: the profile is mutated only on booking confirmation             -/
/- ------------------------------------------------------------------ -/

/-- C9: across `processMessage` turns the profile changes only on the
BOOKING_CONFIRM confirm path; there the booked restaurant's cuisine counters
and mapped vibe-category counters are incremented by one (for pairwise
distinct keys) and `lastArea` is set; and no counter ever decreases. -/
theorem profile_mutation_policy :
    (∀ (catalog : List Restaurant) (userText : String) (context : ConversationContext)
        (profile : Profile) (extraction : Option SlotExtractionResult)
        (resolvedDate : String) (out : TurnOutcome),
      processMessage catalog userText context profile extraction resolvedDate = some out →
      confirmPath catalog userText context = false →
      out.profile = profile)
    ∧ (∀ (catalog : List Restaurant) (userText : String) (context : ConversationContext)
        (profile : Profile) (extraction : Option SlotExtractionResult)
        (resolvedDate : String) (d : BookingDraft) (r : Restaurant) (out : TurnOutcome),
      context.state = .BOOKING_CONFIRM →
      (parseIntent userText).intent = .confirm →
      context.bookingDraft = some d →
      jsStrTruthy d.date = true → jsStrTruthy d.time = true →
      jsNatTruthy d.partySize = true →
      catalog.find? (fun rr => rr.id = d.restaurantId) = some r →
      processMessage catalog userText context profile extraction resolvedDate = some out →
      out.profile = updateProfileForBooking profile r
        ∧ out.profile.lastArea = some r.area
        ∧ (r.cuisines.Nodup → ∀ c ∈ r.cuisines,
            getCount out.profile.cuisinesLiked c = getCount profile.cuisinesLiked c + 1)
        ∧ ((r.vibe.filterMap mapRestVibeToSlotVibe).Nodup →
            ∀ sv ∈ r.vibe.filterMap mapRestVibeToSlotVibe,
              getCount out.profile.vibePrefs sv = getCount profile.vibePrefs sv + 1))
    ∧ (∀ (catalog : List Restaurant) (userText : String) (context : ConversationContext)
        (profile : Profile) (extraction : Option SlotExtractionResult)
        (resolvedDate : String) (out : TurnOutcome) (key : String),
      processMessage catalog userText context profile extraction resolvedDate = some out →
      getCount profile.cuisinesLiked key ≤ getCount out.profile.cuisinesLiked key
        ∧ getCount profile.vibePrefs key ≤ getCount out.profile.vibePrefs key) := by
  refine ⟨?_, ?_, ?_⟩
  · intro catalog userText context profile extraction resolvedDate out h hcp
    rcases processMessage_profile_char catalog userText context profile extraction
        resolvedDate out h with hL | ⟨d, r, hstate, hconf, hd, htr, hf, _⟩
    · exact hL
    · exfalso
      simp only [Bool.and_eq_true] at htr
      obtain ⟨⟨h1, h2⟩, h3⟩ := htr
      simp [confirmPath, hstate, hconf, hd, h1, h2, h3, hf] at hcp
  · intro catalog userText context profile extraction resolvedDate d r out hstate hconf
      hd hdd hdt hdp hf hpm
    have hr : (parseIntent userText).intent ≠ .reset := by
      intro hc; rw [hconf] at hc; exact MsgIntent.noConfusion hc
    have hp : (parseIntent userText).intent ≠ .profileCmd := by
      intro hc; rw [hconf] at hc; exact MsgIntent.noConfusion hc
    rw [processMessage_dispatch catalog userText context profile extraction
      resolvedDate hr hp] at hpm
    simp only [hstate] at hpm
    simp only [stepBookingConfirm, hconf, hd, hdd, hdt, hdp, hf] at hpm
    simp only [if_true, Bool.and_self] at hpm
    injection hpm with h2
    subst h2
    refine ⟨rfl, rfl, ?_, ?_⟩
    · intro hnd c hc
      exact getCount_foldl_nodup_mem r.cuisines profile.cuisinesLiked c hnd hc
    · intro hnd sv hsv
      show getCount (r.vibe.foldl (fun acc2 v =>
        match mapRestVibeToSlotVibe v with
        | some sv2 => bump acc2 sv2
        | none => acc2) profile.vibePrefs) sv = getCount profile.vibePrefs sv + 1
      rw [vibeFold_eq]
      exact getCount_foldl_nodup_mem _ _ _ hnd hsv
  · intro catalog userText context profile extraction resolvedDate out key h
    rcases processMessage_profile_char catalog userText context profile extraction
        resolvedDate out h with hL | ⟨d, r, _, _, _, _, _, hup⟩
    · rw [hL]; exact ⟨le_refl _, le_refl _⟩
    · rw [hup]
      constructor
      · exact getCount_foldl_bump_le r.cuisines profile.cuisinesLiked key
      · show getCount profile.vibePrefs key ≤
          getCount (r.vibe.foldl (fun acc2 v =>
            match mapRestVibeToSlotVibe v with
            | some sv2 => bump acc2 sv2
            | none => acc2) profile.vibePrefs) key
        rw [vibeFold_eq]
        exact getCount_foldl_bump_le _ _ _

theorem runRecommendBlock_some_slots (catalog : List Restaurant) (profile : Profile)
    (ctx : ConversationContext) (c2 : ConversationContext) (resp : String)
    (h : runRecommendBlock catalog profile ctx = some (c2, resp)) :
    c2.slots = ctx.slots ∧ c2.state = .RECOMMEND := by
  simp only [runRecommendBlock] at h
  split at h
  · exact Option.noConfusion h
  · injection h with h2
    have h3 := congrArg Prod.fst h2
    dsimp only at h3
    rw [← h3]
    exact ⟨rfl, rfl⟩

/- ------------------------------------------------------------------ -/
/- C3: the extraction merge overwrites already-set slots               -/
/- ------------------------------------------------------------------ -/

def c3Ctx : ConversationContext :=
  ⟨.DISCOVERY, { area := some "Beirut" }, none, none, none, none⟩

def c3Ext : SlotExtractionResult := ⟨{ area := some "Downtown" }, 0.9⟩

/-- C3 counterexample: in a DISCOVERY turn the spread merge lets the
extraction result replace the already-set area. -/
theorem merge_overwrites_counterexample :
    c3Ctx.slots.area = some "Beirut"
      ∧ (processMessage [] "downtown please" c3Ctx {} (some c3Ext) "").map
          (fun o => o.context.slots.area) = some (some "Downtown") :=
  ⟨rfl, rfl⟩

/-- C3 amended: a previously-set slot keeps its value exactly when the
extraction result carries no value for it; when the extraction result
carries a value, that value overwrites the previous one, and the WELCOME and
DISCOVERY branches store precisely this merge. -/
theorem merge_overwrite_amended :
    (∀ cur ext : Slots,
      ((ext.mealTime = none → (mergeSlots cur ext).mealTime = cur.mealTime)
        ∧ (ext.mealTime ≠ none → (mergeSlots cur ext).mealTime = ext.mealTime))
      ∧ ((ext.area = none → (mergeSlots cur ext).area = cur.area)
        ∧ (ext.area ≠ none → (mergeSlots cur ext).area = ext.area))
      ∧ ((ext.partySize = none → (mergeSlots cur ext).partySize = cur.partySize)
        ∧ (ext.partySize ≠ none → (mergeSlots cur ext).partySize = ext.partySize))
      ∧ ((ext.budget = none → (mergeSlots cur ext).budget = cur.budget)
        ∧ (ext.budget ≠ none → (mergeSlots cur ext).budget = ext.budget))
      ∧ ((ext.cravingCuisines = none →
            (mergeSlots cur ext).cravingCuisines = cur.cravingCuisines)
        ∧ (ext.cravingCuisines ≠ none →
            (mergeSlots cur ext).cravingCuisines = ext.cravingCuisines))
      ∧ ((ext.vibe = none → (mergeSlots cur ext).vibe = cur.vibe)
        ∧ (ext.vibe ≠ none → (mergeSlots cur ext).vibe = ext.vibe))
      ∧ ((ext.dietary = none → (mergeSlots cur ext).dietary = cur.dietary)
        ∧ (ext.dietary ≠ none → (mergeSlots cur ext).dietary = ext.dietary))
      ∧ ((ext.avoid = none → (mergeSlots cur ext).avoid = cur.avoid)
        ∧ (ext.avoid ≠ none → (mergeSlots cur ext).avoid = ext.avoid)))
    ∧ (∀ (catalog : List Restaurant) (userText : String) (context : ConversationContext)
        (profile : Profile) (e : SlotExtractionResult) (resolvedDate : String)
        (out : TurnOutcome),
      context.state = .DISCOVERY →
      (parseIntent userText).intent ≠ .reset →
      (parseIntent userText).intent ≠ .profileCmd →
      canRecommend context.slots profile = false →
      processMessage catalog userText context profile (some e) resolvedDate = some out →
      out.context.slots = mergeSlots context.slots e.slots) := by
  constructor
  · intro cur ext
    refine ⟨⟨?_, ?_⟩, ⟨?_, ?_⟩, ⟨?_, ?_⟩, ⟨?_, ?_⟩, ⟨?_, ?_⟩, ⟨?_, ?_⟩, ⟨?_, ?_⟩, ⟨?_, ?_⟩⟩
    · intro h; simp [mergeSlots, overrideField, h]
    · intro h
      cases hx : ext.mealTime with
      | none => exact absurd hx h
      | some v => simp [mergeSlots, overrideField, hx]
    · intro h; simp [mergeSlots, overrideField, h]
    · intro h
      cases hx : ext.area with
      | none => exact absurd hx h
      | some v => simp [mergeSlots, overrideField, hx]
    · intro h; simp [mergeSlots, overrideField, h]
    · intro h
      cases hx : ext.partySize with
      | none => exact absurd hx h
      | some v => simp [mergeSlots, overrideField, hx]
    · intro h; simp [mergeSlots, overrideField, h]
    · intro h
      cases hx : ext.budget with
      | none => exact absurd hx h
      | some v => simp [mergeSlots, overrideField, hx]
    · intro h; simp [mergeSlots, overrideField, h]
    · intro h
      cases hx : ext.cravingCuisines with
      | none => exact absurd hx h
      | some v => simp [mergeSlots, overrideField, hx]
    · intro h; simp [mergeSlots, overrideField, h]
    · intro h
      cases hx : ext.vibe with
      | none => exact absurd hx h
      | some v => simp [mergeSlots, overrideField, hx]
    · intro h; simp [mergeSlots, overrideField, h]
    · intro h
      cases hx : ext.dietary with
      | none => exact absurd hx h
      | some v => simp [mergeSlots, overrideField, hx]
    · intro h; simp [mergeSlots, overrideField, h]
    · intro h
      cases hx : ext.avoid with
      | none => exact absurd hx h
      | some v => simp [mergeSlots, overrideField, hx]
  · intro catalog userText context profile e resolvedDate out hstate hr hp hcan hpm
    rw [processMessage_dispatch catalog userText context profile (some e)
      resolvedDate hr hp] at hpm
    simp only [hstate] at hpm
    simp only [stepDiscovery, hcan] at hpm
    cases hc2 : canRecommend (mergeSlots context.slots e.slots) profile with
    | false =>
        simp only [hc2, Bool.false_eq_true, if_false] at hpm
        injection hpm with h2
        subst h2
        rfl
    | true =>
        simp only [hc2, if_true] at hpm
        cases hrb : runRecommendBlock catalog profile
            { context with slots := mergeSlots context.slots e.slots } with
        | none => rw [hrb] at hpm; exact Option.noConfusion hpm
        | some pr =>
            obtain ⟨c2, resp⟩ := pr
            rw [hrb] at hpm
            injection hpm with h2
            subst h2
            exact (runRecommendBlock_some_slots _ _ _ _ _ hrb).1

theorem merge_overwrite_amended_witness :
    ∃ out, processMessage [] "downtown please" c3Ctx {} (some c3Ext) "" = some out
      ∧ out.context.slots = mergeSlots c3Ctx.slots c3Ext.slots :=
  ⟨_, rfl,
    merge_overwrite_amended.2 [] "downtown please" c3Ctx {} c3Ext "" _
      rfl (by decide) (by decide) (by decide) rfl⟩

/- ------------------------------------------------------------------ -/
/- C4: which invalid commands re-prompt without advancing              -/
/- ------------------------------------------------------------------ -/

def c4Ctx : ConversationContext :=
  ⟨.BOOKING_COLLECT, {}, some ⟨"r-alpha", none, none, none, none⟩, none, none, none⟩

/-- C4 counterexample: "book 1" during BOOKING_COLLECT date collection is not
rejected — it is stored as the booking date (the resolution of the literal
text, which the deterministic date fallback passes through unchanged) and the
flow advances to asking for the time. -/
theorem booking_collect_accepts_book_counterexample :
    c4Ctx.bookingDraft = some ⟨"r-alpha", none, none, none, none⟩
      ∧ (processMessage [rAlpha] "book 1" c4Ctx {} none "book 1").map
          (fun o => o.context.bookingDraft) =
          some (some ⟨"r-alpha", some "book 1", none, none, none⟩)
      ∧ (processMessage [rAlpha] "book 1" c4Ctx {} none "book 1").map
          (fun o => o.response) =
          some "Perfect! What time would you like? You can say things like '7pm', '19:00', or '7:30 PM'." :=
  ⟨rfl, rfl, rfl⟩

/-- C4 amended: a BOOKING_CONFIRM reply that is no recognized command and an
unmapped option number in RECOMMEND are rejected with a clarifying re-prompt
and leave the context (state, slots, draft) unchanged; the BOOKING_COLLECT
date turn, by contrast, accepts any text (see the counterexample). -/
theorem invalid_command_reprompts_amended :
    (∀ (catalog : List Restaurant) (userText : String) (context : ConversationContext)
        (profile : Profile) (extraction : Option SlotExtractionResult)
        (resolvedDate : String),
      context.state = .BOOKING_CONFIRM →
      (parseIntent userText).intent ≠ .reset →
      (parseIntent userText).intent ≠ .profileCmd →
      (parseIntent userText).intent ≠ .confirm →
      (parseIntent userText).intent ≠ .change →
      processMessage catalog userText context profile extraction resolvedDate =
        some ⟨context,
          "Please reply 'confirm' to book or 'change' to modify your booking.", profile⟩)
    ∧ (∀ (catalog : List Restaurant) (userText : String) (context : ConversationContext)
        (profile : Profile) (extraction : Option SlotExtractionResult)
        (resolvedDate : String) (n : Nat),
      context.state = .RECOMMEND →
      parseIntent userText = ⟨.select_option, some n⟩ →
      ctxMappingGet context.recommendations n = none →
      processMessage catalog userText context profile extraction resolvedDate =
        some ⟨context,
          "I don't have that option. Please reply with 1, 2, or 3 to pick a restaurant.",
          profile⟩)
    ∧ (∀ (catalog : List Restaurant) (userText : String) (context : ConversationContext)
        (profile : Profile) (extraction : Option SlotExtractionResult)
        (resolvedDate : String) (n : Nat),
      context.state = .RECOMMEND →
      parseIntent userText = ⟨.book_option, some n⟩ →
      ctxMappingGet context.recommendations n = none →
      processMessage catalog userText context profile extraction resolvedDate =
        some ⟨context,
          "I don't have that option. Please reply 'book 1', 'book 2', or 'book 3' to book a restaurant.",
          profile⟩) := by
  refine ⟨?_, ?_, ?_⟩
  · intro catalog userText context profile extraction resolvedDate hstate hr hp hc hch
    rw [processMessage_dispatch catalog userText context profile extraction
      resolvedDate hr hp]
    simp only [hstate]
    simp only [stepBookingConfirm]
    rw [if_neg hc, if_neg hch]
  · intro catalog userText context profile extraction resolvedDate n hstate hparse hmap
    have hr : (parseIntent userText).intent ≠ .reset := by
      intro hcx; rw [hparse] at hcx; exact MsgIntent.noConfusion hcx
    have hp : (parseIntent userText).intent ≠ .profileCmd := by
      intro hcx; rw [hparse] at hcx; exact MsgIntent.noConfusion hcx
    rw [processMessage_dispatch catalog userText context profile extraction
      resolvedDate hr hp]
    simp only [hstate]
    simp only [stepRecommend, hparse, hmap]
  · intro catalog userText context profile extraction resolvedDate n hstate hparse hmap
    have hr : (parseIntent userText).intent ≠ .reset := by
      intro hcx; rw [hparse] at hcx; exact MsgIntent.noConfusion hcx
    have hp : (parseIntent userText).intent ≠ .profileCmd := by
      intro hcx; rw [hparse] at hcx; exact MsgIntent.noConfusion hcx
    rw [processMessage_dispatch catalog userText context profile extraction
      resolvedDate hr hp]
    simp only [hstate]
    simp only [stepRecommend, hparse, hmap]

def c4ConfirmCtx : ConversationContext :=
  ⟨.BOOKING_CONFIRM, {}, some ⟨"r-alpha", some "2025-01-01", some "19:00", some 2, some ""⟩,
    none, none, none⟩

theorem invalid_command_reprompts_amended_witness :
    processMessage [rAlpha] "hello" c4ConfirmCtx {} none "" =
      some ⟨c4ConfirmCtx,
        "Please reply 'confirm' to book or 'change' to modify your booking.", ({} : Profile)⟩ :=
  invalid_command_reprompts_amended.1 [rAlpha] "hello" c4ConfirmCtx {} none ""
    rfl (by decide) (by decide) (by decide) (by decide)

/- ------------------------------------------------------------------ -/
/- C2: walk-in-only selection and the booking sub-flow                 -/
/- ------------------------------------------------------------------ -/

def c2Ctx : ConversationContext :=
  ⟨.RECOMMEND, {}, none,
    some ⟨⟨rBeta, []⟩, [], ⟨rBeta, none, none⟩, some ["r-beta"]⟩, none, none⟩

/-- C2 counterexample: in the state-machine flow, "book 1" on a mapped
restaurant whose `bookingAvailable` is false still enters BOOKING_COLLECT. -/
theorem book_walkin_counterexample :
    rBeta.bookingAvailable = false
      ∧ (processMessage [rBeta] "book 1" c2Ctx {} none "").map
          (fun o => o.context.state) = some ConversationState.BOOKING_COLLECT :=
  ⟨rfl, rfl⟩

set_option maxHeartbeats 2000000 in
/-- C2 amended: the walk-in-only skip lives in the mode-driven flow — picking
a recommended restaurant with `bookingAvailable = false` never enters the
confirming mode, clears the selection, surfaces the discount code when
present and returns the mode to collecting; the state-machine flow's
"book N", by contrast, enters BOOKING_COLLECT regardless of the flag. -/
theorem walkin_pick_amended :
    (∀ (catalog : List Restaurant) (userText : String) (st : NewFlowState)
        (cls : Option ClassifyResult) (val : Option ValidateResult)
        (nrm : Option NormalizeResult) (num : Nat) (r : Restaurant),
      st.mode = .recommending →
      parsePick (jsTrim (jsLower userText)).toList = some num →
      (match getTopRestaurants catalog st.request with
        | some recs => (recs.top :: recs.alternatives).get? (num - 1)
        | none => none) = some r →
      r.bookingAvailable = false →
      processMessageNew catalog userText st cls val nrm =
        ⟨st.request, .collecting, st.pendingSlot, none,
          "You can just head over—no booking needed."
            ++ (match r.discountCode with
              | some code =>
                  " Present this code at the door for a discount: **" ++ code ++ "**"
              | none => "")⟩)
    ∧ (∀ (catalog : List Restaurant) (userText : String) (context : ConversationContext)
        (profile : Profile) (extraction : Option SlotExtractionResult)
        (resolvedDate : String) (n : Nat) (r : Restaurant),
      context.state = .RECOMMEND →
      parseIntent userText = ⟨.book_option, some n⟩ →
      ctxMappingGet context.recommendations n = some r →
      ∃ out, processMessage catalog userText context profile extraction resolvedDate
          = some out
        ∧ out.context.state = .BOOKING_COLLECT
        ∧ out.context.bookingDraft =
            some ⟨r.id, none, none, context.slots.partySize, none⟩) := by
  constructor
  · intro catalog userText st cls val nrm num r hmode hpick hsel hbook
    have h1 : ¬ (jsTrim (jsLower userText) = "reset") := by
      intro hEq
      rw [hEq] at hpick
      have hz : parsePick ("reset" : String).toList = none := rfl
      rw [hz] at hpick
      exact Option.noConfusion hpick
    have h2 : ¬ (jsTrim (jsLower userText) = "continue chat") := by
      intro hEq
      rw [hEq] at hpick
      have hz : parsePick ("continue chat" : String).toList = none := rfl
      rw [hz] at hpick
      exact Option.noConfusion hpick
    have h3 : ¬ (jsTrim (jsLower userText) = "continue") := by
      intro hEq
      rw [hEq] at hpick
      have hz : parsePick ("continue" : String).toList = none := rfl
      rw [hz] at hpick
      exact Option.noConfusion hpick
    have hcc : ¬ ((decide (st.mode = RequestMode.recommending) &&
        (decide (jsTrim (jsLower userText) = "continue chat")
          || decide (jsTrim (jsLower userText) = "continue"))) = true) := by
      simp [h2, h3]
    simp only [processMessageNew]
    rw [if_neg h1, if_neg hcc, if_pos hmode]
    simp only [hpick]
    simp only [hsel]
    simp [hbook]
  · intro catalog userText context profile extraction resolvedDate n r hstate hparse hmap
    have hr : (parseIntent userText).intent ≠ .reset := by
      intro hcx; rw [hparse] at hcx; exact MsgIntent.noConfusion hcx
    have hp : (parseIntent userText).intent ≠ .profileCmd := by
      intro hcx; rw [hparse] at hcx; exact MsgIntent.noConfusion hcx
    rw [processMessage_dispatch catalog userText context profile extraction
      resolvedDate hr hp]
    simp only [hstate]
    simp only [stepRecommend, hparse, hmap]
    exact ⟨_, rfl, rfl, rfl⟩

def c2NewState : NewFlowState :=
  ⟨{ area := some "Marina" }, .recommending, none, some "r-beta"⟩

theorem walkin_pick_amended_witness :
    processMessageNew [rBeta] "1" c2NewState none none none =
      ⟨{ area := some "Marina" }, .collecting, none, none,
        "You can just head over—no booking needed."
          ++ " Present this code at the door for a discount: **WALK10**"⟩ :=
  walkin_pick_amended.1 [rBeta] "1" c2NewState none none none 1 rBeta
    rfl rfl rfl rfl

/- ------------------------------------------------------------------ -/
/- C9 witness                                                          -/
/- ------------------------------------------------------------------ -/

def c9Draft : BookingDraft :=
  ⟨"r-alpha", some "2025-01-01", some "19:00", some 2, some ""⟩

def c9Ctx : ConversationContext := ⟨.BOOKING_CONFIRM, {}, some c9Draft, none, none, none⟩

theorem profile_mutation_policy_witness :
    ∃ out, processMessage [rAlpha] "confirm" c9Ctx {} none "" = some out
      ∧ getCount out.profile.cuisinesLiked "Italian"
          = getCount ({} : Profile).cuisinesLiked "Italian" + 1
      ∧ out.profile.lastArea = some rAlpha.area :=
  ⟨_, rfl,
    (profile_mutation_policy.2.1 [rAlpha] "confirm" c9Ctx {} none "" c9Draft rAlpha _
      rfl rfl rfl (by decide) (by decide) (by decide) rfl rfl).2.2.1
      (by decide) "Italian" (by decide),
    (profile_mutation_policy.2.1 [rAlpha] "confirm" c9Ctx {} none "" c9Draft rAlpha _
      rfl rfl rfl (by decide) (by decide) (by decide) rfl rfl).2.1⟩
